import Mathlib

/-!
A shallow embedding of `goog.net.streams.XhrStreamReader`
(`src/closure/goog/net/streams/xhrstreamreader.js`).

The reader is an event-driven state machine: the XHR transport fires
`readystatechange` notifications, and the reader reacts by classifying the
outcome, lazily selecting a stream parser from the response headers, decoding
the newly arrived slice of the response text, delivering message batches, and
tearing itself down on terminal states.

Modelling choices:
* The reader state (`XhrStreamReader`) mirrors the JS instance fields
  `xhr_`, `parser_`, `pos_`, `status_`, `statusHandler_`, `dataHandler_`,
  plus `listening` for the listener registered through `eventHandler_`.
  The transport is identified by a numeric id; the handlers are tracked as
  Booleans (registered or not) because their only effect on the reader is
  whether they get invoked — invocations are recorded in the effect trace.
* Each notification is a snapshot (`XhrEvent`) of everything the handler
  reads from the transport (`getReadyState`, `getLastErrorCode`,
  `getStatus`, `getResponseText`, the two streaming response headers),
  together with the behaviour of the external collaborators during this
  notification: the outcome of `parser_.parse` on the new slice
  (`parseOutcome`: a decode fault, `null`, or an array of messages — the
  concrete parsers live outside this file's source scope) and whether the
  registered data handler throws when invoked (`dataHandlerThrows`).
  The status-change callback is modelled as total (it returns normally):
  the spec's fault taxonomy (§4.6, §7) covers decode faults and message
  handler faults, which are both modelled.
* Everything observable (calls on the transport, header inspection, parser
  invocations, handler invocations, log lines) is recorded in a trace of
  `Effect`s, in source order.
* JS string operations are embedded structurally over `String.data` so that
  concrete runs reduce inside the kernel: `jsToLower`, `jsStartsWith`,
  `jsSubstr`, `jsLength` model `toLowerCase`, `startsWith`, `substr(pos)`
  and `.length` (all header constants are ASCII; surrogate-pair length
  differences are irrelevant here). Messages are opaque, modelled as `Nat`.
-/

/-- Enum `XhrStreamReaderStatus` (source lines 386–431). -/
inductive XhrStreamReaderStatus where
  | INIT
  | ACTIVE
  | SUCCESS
  | XHR_ERROR
  | NO_DATA
  | BAD_DATA
  | HANDLER_EXCEPTION
  | TIMEOUT
  | CANCELLED
deriving DecidableEq, Repr

/-- Numeric value of each status, exactly as in the JS enum. -/
def XhrStreamReaderStatus.toNat : XhrStreamReaderStatus → Nat
  | .INIT => 0
  | .ACTIVE => 1
  | .SUCCESS => 2
  | .XHR_ERROR => 3
  | .NO_DATA => 4
  | .BAD_DATA => 5
  | .HANDLER_EXCEPTION => 6
  | .TIMEOUT => 7
  | .CANCELLED => 8

/-- The slice of `goog.net.ErrorCode` the reader distinguishes:
`TIMEOUT`, `ABORT`, and everything else (`NO_ERROR` / `HTTP_ERROR`). -/
inductive ErrorCode where
  | NO_ERROR
  | TIMEOUT
  | ABORT
  | HTTP_ERROR
deriving DecidableEq, Repr

/-- The four stream parser classes the reader can select
(`PbJsonStreamParser`, `JsonStreamParser`, `PbStreamParser`,
`Base64PbStreamParser`). -/
inductive ParserKind where
  | pbJson
  | json
  | pb
  | base64Pb
deriving DecidableEq, Repr

/-- `goog.net.XmlHttp.ReadyState.INTERACTIVE`. -/
def ReadyStateINTERACTIVE : Nat := 3

/-- `goog.net.XmlHttp.ReadyState.COMPLETE`. -/
def ReadyStateCOMPLETE : Nat := 4

/-- `goog.net.HttpStatus.OK`. -/
def HttpStatusOK : Nat := 200

/-- `goog.net.HttpStatus.PARTIAL_CONTENT`. -/
def HttpStatusPARTIAL_CONTENT : Nat := 206

/-- JS `String.prototype.toLowerCase`, char by char (ASCII suffices for the
header comparisons performed by the reader). -/
def jsToLower (s : String) : String :=
  ⟨s.data.map Char.toLower⟩

/-- JS `String.prototype.startsWith` / `goog.string.startsWith`. -/
def jsStartsWith (s p : String) : Bool :=
  p.data.isPrefixOf s.data

/-- JS `str.substr(n)`: the suffix of `s` starting at index `n`. -/
def jsSubstr (s : String) (n : Nat) : String :=
  ⟨s.data.drop n⟩

/-- JS `str.length`. -/
def jsLength (s : String) : Nat :=
  s.data.length

deriving instance DecidableEq for Except

/-- Snapshot of one `readystatechange` notification: what the reader reads
from the transport, plus the behaviour of the external collaborators
(parser, data handler) during this notification. -/
structure XhrEvent where
  /-- `event.target`, as a transport id. -/
  target : Nat
  /-- `xhr.getReadyState()`. -/
  readyState : Nat
  /-- `xhr.getLastErrorCode()`. -/
  errorCode : ErrorCode
  /-- `xhr.getStatus()` (the numeric HTTP status code). -/
  statusCode : Nat
  /-- `xhr.getResponseText()` (cumulative). -/
  responseText : String
  /-- `getStreamingResponseHeader(CONTENT_TYPE_HEADER)`; `none` = header
  absent (JS `null`). -/
  contentType : Option String
  /-- `getStreamingResponseHeader(CONTENT_TRANSFER_ENCODING)`. -/
  transferEncoding : Option String
  /-- Outcome of `parser_.parse(newData)` if the reader hands the parser the
  new slice during this notification: a thrown decode fault (`error`), JS
  `null` (`ok none`), or an array of decoded messages (`ok (some ms)`). -/
  parseOutcome : Except Unit (Option (List Nat))
  /-- Whether the registered data handler throws when invoked during this
  notification. -/
  dataHandlerThrows : Bool
deriving DecidableEq, Repr

/-- Observable actions of the reader, in source order. -/
inductive Effect where
  /-- `eventHandler_.removeAll()` unregistering the live listener. -/
  | unlisten
  /-- `xhr.abort()`. -/
  | abortCall
  /-- `xhr.dispose()`. -/
  | disposeCall
  /-- An invocation of the registered status handler; the reader's status
  at the moment of the call. -/
  | statusCall (s : XhrStreamReaderStatus)
  /-- An invocation of the registered data handler with one batch. -/
  | dataCall (msgs : List Nat)
  /-- An invocation of `parser_.parse`: the read-cursor value at hand-off
  and the slice handed over. -/
  | parseCall (pos : Nat) (data : String)
  /-- One run of `getParserByResponseHeader_` (the header inspection),
  with its result. -/
  | selectCall (result : Option ParserKind)
  /-- `googLog.warning`. -/
  | warn
  /-- `googLog.error`. -/
  | logError
deriving DecidableEq, Repr

/-- The reader's mutable state (constructor, source lines 56–115). -/
structure XhrStreamReader where
  /-- `this.xhr_`: the owned transport id, `none` once released. -/
  xhr_ : Option Nat
  /-- `this.parser_`: the lazily selected stream parser. -/
  parser_ : Option ParserKind
  /-- `this.pos_`: position where the next unprocessed data starts. -/
  pos_ : Nat
  /-- `this.status_`. -/
  status_ : XhrStreamReaderStatus
  /-- Whether a status handler is registered (`this.statusHandler_`). -/
  statusHandler_ : Bool
  /-- Whether a data handler is registered (`this.dataHandler_`). -/
  dataHandler_ : Bool
  /-- Whether the `READY_STATE_CHANGE` listener registered in the
  constructor is still attached (`this.eventHandler_`). -/
  listening : Bool
deriving DecidableEq, Repr

/-- The constructor: owns the transport, registers the listener, starts at
`INIT` with cursor `0` and no parser. Handlers are fixed per run (the JS
setters `setStatusHandler` / `setDataHandler` are modelled by choosing
`sh` / `dh` up front). -/
def mkXhrStreamReader (xhrId : Nat) (sh dh : Bool) : XhrStreamReader :=
  { xhr_ := some xhrId
    parser_ := none
    pos_ := 0
    status_ := XhrStreamReaderStatus.INIT
    statusHandler_ := sh
    dataHandler_ := dh
    listening := true }

/-- `getStatus()` (source lines 327–330). -/
def getStatus (r : XhrStreamReader) : XhrStreamReaderStatus :=
  r.status_

/-- `getXhr()` (source lines 281–284). -/
def getXhr (r : XhrStreamReader) : Option Nat :=
  r.xhr_

/-- `updateStatus_` (source lines 292–301): set the status and invoke the
status handler only when the value actually changes. -/
def updateStatus_ (r : XhrStreamReader) (status : XhrStreamReaderStatus) :
    XhrStreamReader × List Effect :=
  if r.status_ ≠ status then
    let r1 := { r with status_ := status }
    if r1.statusHandler_ then (r1, [Effect.statusCall status]) else (r1, [])
  else (r, [])

/-- `clear_` (source lines 309–320): remove all listeners; if the transport
is still held, null the `xhr_` field first ("clear out before aborting to
avoid being reentered inside abort"), then abort and dispose the saved
local reference. `removeAll` on an empty handler set has no observable
effect, so `unlisten` is recorded only when a listener was attached. -/
def clear_ (r : XhrStreamReader) : XhrStreamReader × List Effect :=
  let removeEffs := if r.listening then [Effect.unlisten] else []
  let r1 := { r with listening := false }
  match r1.xhr_ with
  | some _ =>
      let r2 := { r1 with xhr_ := none }
      (r2, removeEffs ++ [Effect.abortCall, Effect.disposeCall])
  | none => (r1, removeEffs)

/-- `getParserByResponseHeader_` (source lines 240–275), as a pure function
of the two streaming response headers. JS falsiness: a missing header
(`null`) and the empty string are both rejected by `if (!contentType)`
and `if (!encoding)`. -/
def getParserByResponseHeader_ (contentType transferEncoding : Option String) :
    Option ParserKind :=
  match contentType with
  | none => none
  | some ct0 =>
    if ct0 = "" then none
    else
      let ct := jsToLower ct0
      if jsStartsWith ct "application/json" then
        if jsStartsWith ct "application/json+protobuf" then some ParserKind.pbJson
        else some ParserKind.json
      else if jsStartsWith ct "application/x-protobuf" then
        match transferEncoding with
        | none => some ParserKind.pb
        | some enc =>
          if enc = "" then some ParserKind.pb
          else if jsToLower enc = "base64" then some ParserKind.base64Pb
          else none
      else none

/-- Lines 170–178 of `onReadyStateChanged_`: at `COMPLETE`, classify a
timeout, an application abort, or an unsuccessful HTTP status code. -/
def classifyStep (ev : XhrEvent) (r : XhrStreamReader) :
    XhrStreamReader × List Effect :=
  if ev.readyState = ReadyStateCOMPLETE then
    if ev.errorCode = ErrorCode.TIMEOUT then
      updateStatus_ r XhrStreamReaderStatus.TIMEOUT
    else if ev.errorCode = ErrorCode.ABORT then
      updateStatus_ r XhrStreamReaderStatus.CANCELLED
    else if ¬ (ev.statusCode = HttpStatusOK ∨
               ev.statusCode = HttpStatusPARTIAL_CONTENT) then
      updateStatus_ r XhrStreamReaderStatus.XHR_ERROR
    else (r, [])
  else (r, [])

/-- Lines 187–192 of `onReadyStateChanged_`: if no parser has been selected
yet, inspect the headers; on failure the field stays null and the status
becomes `BAD_DATA`. -/
def selectStep (ev : XhrEvent) (r : XhrStreamReader) :
    XhrStreamReader × List Effect :=
  if r.parser_ = none then
    let selected := getParserByResponseHeader_ ev.contentType ev.transferEncoding
    let r1 := { r with parser_ := selected }
    if selected = none then
      let u := updateStatus_ r1 XhrStreamReaderStatus.BAD_DATA
      (u.1, Effect.selectCall selected :: u.2)
    else (r1, [Effect.selectCall selected])
  else (r, [])

/-- Lines 200–217 of `onReadyStateChanged_`: if new text has arrived, hand
the slice past the cursor to the parser (advancing the cursor first) and
deliver a non-null batch to the data handler. The `try`/`catch` around
both the parse and the delivery is modelled by the `Sum`: `inl` is the
catch path (log, `BAD_DATA`, `clear_`, return), taken on a decode fault or
on an exception thrown by the data handler; `inr` falls through. -/
def decodeStep (ev : XhrEvent) (r : XhrStreamReader) :
    (XhrStreamReader × List Effect) ⊕ (XhrStreamReader × List Effect) :=
  if r.pos_ < jsLength ev.responseText then
    let newData := jsSubstr ev.responseText r.pos_
    let r1 := { r with pos_ := jsLength ev.responseText }
    let pe := [Effect.parseCall r.pos_ newData]
    match ev.parseOutcome with
    | Except.error _ =>
        let u := updateStatus_ r1 XhrStreamReaderStatus.BAD_DATA
        let c := clear_ u.1
        Sum.inl (c.1, pe ++ Effect.logError :: (u.2 ++ c.2))
    | Except.ok none => Sum.inr (r1, pe)
    | Except.ok (some messages) =>
        if r1.dataHandler_ then
          if ev.dataHandlerThrows then
            let u := updateStatus_ r1 XhrStreamReaderStatus.BAD_DATA
            let c := clear_ u.1
            Sum.inl (c.1, pe ++ Effect.dataCall messages ::
              Effect.logError :: (u.2 ++ c.2))
          else Sum.inr (r1, pe ++ [Effect.dataCall messages])
        else Sum.inr (r1, pe)
  else Sum.inr (r, [])

/-- Lines 219–229 of `onReadyStateChanged_`: at `COMPLETE`, finish with
`NO_DATA` or `SUCCESS` and tear down; otherwise re-affirm `ACTIVE`. -/
def finishStep (ev : XhrEvent) (r : XhrStreamReader) :
    XhrStreamReader × List Effect :=
  if ev.readyState = ReadyStateCOMPLETE then
    let target :=
      if jsLength ev.responseText = 0 then XhrStreamReaderStatus.NO_DATA
      else XhrStreamReaderStatus.SUCCESS
    let u := updateStatus_ r target
    let c := clear_ u.1
    (c.1, u.2 ++ c.2)
  else updateStatus_ r XhrStreamReaderStatus.ACTIVE

/-- `onReadyStateChanged_` (source lines 150–230), assembled from the
blocks above in source order: the early-out gate, the `COMPLETE`
classification, the empty-body warning, lazy parser selection, the
strictly-worse-than-`SUCCESS` short circuit (tear down and return before
any decoding), the decode-and-deliver block, and the final
completion/`ACTIVE` update. -/
def onReadyStateChanged_ (ev : XhrEvent) (r : XhrStreamReader) :
    XhrStreamReader × List Effect :=
  if ev.readyState < ReadyStateINTERACTIVE ∨
     (ev.readyState = ReadyStateINTERACTIVE ∧ ev.responseText = "") then
    (r, [])
  else
    let c := classifyStep ev r
    let e1 :=
      if (ev.statusCode = HttpStatusOK ∨
          ev.statusCode = HttpStatusPARTIAL_CONTENT) ∧ ev.responseText = ""
      then c.2 ++ [Effect.warn] else c.2
    let s := selectStep ev c.1
    if XhrStreamReaderStatus.SUCCESS.toNat < s.1.status_.toNat then
      let cl := clear_ s.1
      (cl.1, e1 ++ s.2 ++ cl.2)
    else
      match decodeStep ev s.1 with
      | Sum.inl d => (d.1, e1 ++ s.2 ++ d.2)
      | Sum.inr d =>
        let f := finishStep ev d.1
        (f.1, e1 ++ s.2 ++ d.2 ++ f.2)

/-- `readyStateChangeHandler_` (source lines 360–378): process the event if
it comes from the owned transport, otherwise log a warning and ignore it.
The surrounding `try`/`catch` (log, `HANDLER_EXCEPTION`, `clear_`, no
rethrow) is unreachable in this fault model: the two faulting
collaborators — the parser and the data handler — are both caught by the
`catch` inside the decode block, so `onReadyStateChanged_` is total. -/
def readyStateChangeHandler_ (ev : XhrEvent) (r : XhrStreamReader) :
    XhrStreamReader × List Effect :=
  if some ev.target = r.xhr_ then onReadyStateChanged_ ev r
  else (r, [Effect.warn])

/-- Delivery of one `READY_STATE_CHANGE` event by the event system: the
handler runs only while the listener registered in the constructor is
still attached. -/
def deliverEvent (ev : XhrEvent) (r : XhrStreamReader) :
    XhrStreamReader × List Effect :=
  if r.listening then readyStateChangeHandler_ ev r
  else (r, [])

/-- A whole run: deliver a sequence of notifications, concatenating the
effect traces. -/
def runEvents (r : XhrStreamReader) (evs : List XhrEvent) :
    XhrStreamReader × List Effect :=
  match evs with
  | [] => (r, [])
  | ev :: rest =>
    let d := deliverEvent ev r
    let t := runEvents d.1 rest
    (t.1, d.2 ++ t.2)

/-- The status values carried by the status-handler invocations in a trace. -/
def statusCalls (effs : List Effect) : List XhrStreamReaderStatus :=
  effs.filterMap fun e =>
    match e with
    | Effect.statusCall s => some s
    | _ => none

/-- The message batches delivered to the data handler in a trace. -/
def dataCalls (effs : List Effect) : List (List Nat) :=
  effs.filterMap fun e =>
    match e with
    | Effect.dataCall msgs => some msgs
    | _ => none

/-- The parser invocations in a trace (cursor at hand-off, slice handed). -/
def parseCalls (effs : List Effect) : List (Nat × String) :=
  effs.filterMap fun e =>
    match e with
    | Effect.parseCall p d => some (p, d)
    | _ => none

/-- How many times `xhr.abort()` appears in a trace. -/
def abortCount (effs : List Effect) : Nat :=
  (effs.filter fun e => e = Effect.abortCall).length

/-- How many times `xhr.dispose()` appears in a trace. -/
def disposeCount (effs : List Effect) : Nat :=
  (effs.filter fun e => e = Effect.disposeCall).length

/-- How many header inspections (`getParserByResponseHeader_`) a trace
contains. -/
def selectCount (effs : List Effect) : Nat :=
  (effs.filter fun e =>
    match e with
    | Effect.selectCall _ => true
    | _ => false).length

/-- Modelled from the spec: the stream parsers (`JsonStreamParser`,
`PbStreamParser`, `Base64PbStreamParser`, `PbJsonStreamParser`) are outside
this file's source scope; per §3 and §4.3 of the spec a decoder returns the
(possibly empty) sequence of newly completed messages, JS `null` standing
for the empty sequence, so a batch a conforming decoder actually returns
(`ok (some ms)`) is non-empty. -/
def ConformingParse (o : Except Unit (Option (List Nat))) : Prop :=
  match o with
  | Except.ok (some ms) => ms ≠ []
  | _ => True

/-- The within-notification status-transition relation of the amended C2:
either a strict numeric increase, or the one decreasing overwrite the code
performs — a failed parser selection replacing a just-classified `TIMEOUT`
or `CANCELLED` with `BAD_DATA`. -/
def StatusStepRel (a b : XhrStreamReaderStatus) : Prop :=
  a.toNat < b.toNat ∨
    (b = XhrStreamReaderStatus.BAD_DATA ∧
      (a = XhrStreamReaderStatus.TIMEOUT ∨ a = XhrStreamReaderStatus.CANCELLED))

/-- A baseline concrete notification used by the concrete evaluations below:
an `INTERACTIVE` snapshot of a well-behaved JSON stream. -/
def baseEvent : XhrEvent :=
  { target := 7
    readyState := 3
    errorCode := ErrorCode.NO_ERROR
    statusCode := 200
    responseText := "[1]"
    contentType := some "application/json"
    transferEncoding := none
    parseOutcome := Except.ok none
    dataHandlerThrows := false }

/-- A completion notification that timed out before any usable headers
arrived: error classification `TIMEOUT`, no content type. -/
def evTimeoutNoCT : XhrEvent :=
  { baseEvent with readyState := 4, errorCode := ErrorCode.TIMEOUT, statusCode := 0, contentType := none, responseText := "x" }

/-- A completion notification aborted by the application, with an
unrecognized content type. -/
def evAbortNoCT : XhrEvent :=
  { baseEvent with readyState := 4, errorCode := ErrorCode.ABORT, statusCode := 0, contentType := some "text/html" }

/-- A completion notification with HTTP status 500 and no content type. -/
def ev500NoCT : XhrEvent :=
  { baseEvent with readyState := 4, statusCode := 500, contentType := none, responseText := "abc" }

/-- A completion notification with HTTP status 500 and a JSON content type. -/
def ev500Json : XhrEvent :=
  { baseEvent with readyState := 4, statusCode := 500 }

/-- An `INTERACTIVE` notification where the parser completes one message. -/
def evMsg : XhrEvent :=
  { baseEvent with parseOutcome := Except.ok (some [42]) }

/-- An `INTERACTIVE` notification where the parser completes one message and
the registered data handler throws on delivery. -/
def evThrowMsg : XhrEvent :=
  { baseEvent with parseOutcome := Except.ok (some [5]), dataHandlerThrows := true }

/-- A completion notification aborted by the application with a valid JSON
content type: classified `CANCELLED`. -/
def evCancelJson : XhrEvent :=
  { baseEvent with readyState := 4, errorCode := ErrorCode.ABORT, statusCode := 0 }

instance : DecidableRel StatusStepRel := by
  intro a b
  unfold StatusStepRel
  infer_instance

/-! ### Trace utilities -/

theorem abortCount_append (a b : List Effect) :
    abortCount (a ++ b) = abortCount a + abortCount b := by
  simp [abortCount, List.filter_append]

theorem disposeCount_append (a b : List Effect) :
    disposeCount (a ++ b) = disposeCount a + disposeCount b := by
  simp [disposeCount, List.filter_append]

theorem selectCount_append (a b : List Effect) :
    selectCount (a ++ b) = selectCount a + selectCount b := by
  simp [selectCount, List.filter_append]

theorem statusCalls_append (a b : List Effect) :
    statusCalls (a ++ b) = statusCalls a ++ statusCalls b := by
  simp [statusCalls]

theorem dataCalls_append (a b : List Effect) :
    dataCalls (a ++ b) = dataCalls a ++ dataCalls b := by
  simp [dataCalls]

theorem parseCalls_append (a b : List Effect) :
    parseCalls (a ++ b) = parseCalls a ++ parseCalls b := by
  simp [parseCalls]

/-! ### Facts about `updateStatus_` -/

theorem updateStatus_fst (r : XhrStreamReader) (s : XhrStreamReaderStatus) :
    (updateStatus_ r s).1 = { r with status_ := s } := by
  obtain ⟨x, p, ps, st, sh, dh, li⟩ := r
  unfold updateStatus_
  by_cases h : st = s <;> cases sh <;> simp [h]

theorem updateStatus_snd (r : XhrStreamReader) (s : XhrStreamReaderStatus) :
    (updateStatus_ r s).2 =
      if r.status_ ≠ s ∧ r.statusHandler_ = true then [Effect.statusCall s]
      else [] := by
  obtain ⟨x, p, ps, st, sh, dh, li⟩ := r
  unfold updateStatus_
  by_cases h : st = s <;> cases sh <;> simp [h]

theorem updateStatus_counts (r : XhrStreamReader) (s : XhrStreamReaderStatus) :
    abortCount (updateStatus_ r s).2 = 0 ∧
    disposeCount (updateStatus_ r s).2 = 0 ∧
    selectCount (updateStatus_ r s).2 = 0 ∧
    dataCalls (updateStatus_ r s).2 = [] ∧
    parseCalls (updateStatus_ r s).2 = [] := by
  rw [updateStatus_snd]
  by_cases h : r.status_ ≠ s ∧ r.statusHandler_ = true <;>
    simp [h, abortCount, disposeCount, selectCount, dataCalls, parseCalls]

theorem updateStatus_statusCalls (r : XhrStreamReader) (s : XhrStreamReaderStatus) :
    statusCalls (updateStatus_ r s).2 =
      if r.status_ ≠ s ∧ r.statusHandler_ = true then [s] else [] := by
  rw [updateStatus_snd]
  by_cases h : r.status_ ≠ s ∧ r.statusHandler_ = true <;> simp [h, statusCalls]

/-! ### Facts about `clear_` -/

theorem clear_fst (r : XhrStreamReader) :
    (clear_ r).1 = { r with listening := false, xhr_ := none } := by
  obtain ⟨x, p, ps, st, sh, dh, li⟩ := r
  unfold clear_
  cases x <;> simp

theorem clear_snd (r : XhrStreamReader) :
    (clear_ r).2 =
      (if r.listening then [Effect.unlisten] else []) ++
      (if r.xhr_.isSome then [Effect.abortCall, Effect.disposeCall] else []) := by
  obtain ⟨x, p, ps, st, sh, dh, li⟩ := r
  unfold clear_
  cases x <;> cases li <;> simp

theorem clear_counts (r : XhrStreamReader) :
    abortCount (clear_ r).2 = (if r.xhr_.isSome then 1 else 0) ∧
    disposeCount (clear_ r).2 = (if r.xhr_.isSome then 1 else 0) ∧
    selectCount (clear_ r).2 = 0 ∧
    statusCalls (clear_ r).2 = [] ∧
    dataCalls (clear_ r).2 = [] ∧
    parseCalls (clear_ r).2 = [] := by
  rw [clear_snd]
  cases hx : r.xhr_ <;> cases hl : r.listening <;>
    simp [abortCount, disposeCount, selectCount, statusCalls, dataCalls,
      parseCalls, List.filter_append]

/-! ### Shapes of the four blocks of `onReadyStateChanged_` -/

theorem classifyStep_shape (ev : XhrEvent) (r : XhrStreamReader) :
    classifyStep ev r = (r, []) ∨
    (∃ s, (s = XhrStreamReaderStatus.TIMEOUT ∨ s = XhrStreamReaderStatus.CANCELLED ∨
           s = XhrStreamReaderStatus.XHR_ERROR) ∧
      ev.readyState = ReadyStateCOMPLETE ∧
      classifyStep ev r = updateStatus_ r s) := by
  by_cases h1 : ev.readyState = ReadyStateCOMPLETE
  · by_cases h2 : ev.errorCode = ErrorCode.TIMEOUT
    · exact Or.inr ⟨_, Or.inl rfl, h1, by unfold classifyStep; simp [h1, h2]⟩
    · by_cases h3 : ev.errorCode = ErrorCode.ABORT
      · exact Or.inr ⟨_, Or.inr (Or.inl rfl), h1,
          by unfold classifyStep; simp [h1, h2, h3]⟩
      · by_cases h4 : ev.statusCode = HttpStatusOK ∨
            ev.statusCode = HttpStatusPARTIAL_CONTENT
        · exact Or.inl (by unfold classifyStep; simp [h1, h2, h3, h4])
        · exact Or.inr ⟨_, Or.inr (Or.inr rfl), h1,
            by unfold classifyStep; simp [h1, h2, h3, h4]⟩
  · exact Or.inl (by unfold classifyStep; simp [h1])

theorem selectStep_shape (ev : XhrEvent) (r : XhrStreamReader) :
    (r.parser_ ≠ none ∧ selectStep ev r = (r, [])) ∨
    (r.parser_ = none ∧
      ∃ k, getParserByResponseHeader_ ev.contentType ev.transferEncoding = some k ∧
        selectStep ev r =
          ({ r with parser_ := some k }, [Effect.selectCall (some k)])) ∨
    (r.parser_ = none ∧
      getParserByResponseHeader_ ev.contentType ev.transferEncoding = none ∧
      selectStep ev r =
        ((updateStatus_ r XhrStreamReaderStatus.BAD_DATA).1,
          Effect.selectCall none ::
            (updateStatus_ r XhrStreamReaderStatus.BAD_DATA).2)) := by
  by_cases hp : r.parser_ = none
  · cases hsel : getParserByResponseHeader_ ev.contentType ev.transferEncoding with
    | none =>
        refine Or.inr (Or.inr ⟨hp, rfl, ?_⟩)
        have hr : ({ r with parser_ := none } : XhrStreamReader) = r := by
          obtain ⟨x, p, ps, st, sh, dh, li⟩ := r
          simp_all
        unfold selectStep
        simp only [hp, if_true, hsel, if_pos rfl]
        rw [hr]
    | some k =>
        refine Or.inr (Or.inl ⟨hp, k, rfl, ?_⟩)
        unfold selectStep
        simp [hp, hsel]
  · exact Or.inl ⟨hp, by unfold selectStep; simp [hp]⟩

theorem decodeStep_shape (ev : XhrEvent) (r : XhrStreamReader) :
    (¬ r.pos_ < jsLength ev.responseText ∧ decodeStep ev r = Sum.inr (r, [])) ∨
    (r.pos_ < jsLength ev.responseText ∧
      ((ev.parseOutcome = Except.ok none ∧
         decodeStep ev r = Sum.inr ({ r with pos_ := jsLength ev.responseText },
           [Effect.parseCall r.pos_ (jsSubstr ev.responseText r.pos_)])) ∨
       (∃ ms, ev.parseOutcome = Except.ok (some ms) ∧ r.dataHandler_ = false ∧
         decodeStep ev r = Sum.inr ({ r with pos_ := jsLength ev.responseText },
           [Effect.parseCall r.pos_ (jsSubstr ev.responseText r.pos_)])) ∨
       (∃ ms, ev.parseOutcome = Except.ok (some ms) ∧ r.dataHandler_ = true ∧
         ev.dataHandlerThrows = false ∧
         decodeStep ev r = Sum.inr ({ r with pos_ := jsLength ev.responseText },
           [Effect.parseCall r.pos_ (jsSubstr ev.responseText r.pos_),
            Effect.dataCall ms])) ∨
       (∃ ms u c, ev.parseOutcome = Except.ok (some ms) ∧ r.dataHandler_ = true ∧
         ev.dataHandlerThrows = true ∧
         u = updateStatus_ { r with pos_ := jsLength ev.responseText }
               XhrStreamReaderStatus.BAD_DATA ∧
         c = clear_ u.1 ∧
         decodeStep ev r = Sum.inl
           (c.1, Effect.parseCall r.pos_ (jsSubstr ev.responseText r.pos_) ::
             Effect.dataCall ms :: Effect.logError :: (u.2 ++ c.2))) ∨
       (∃ f u c, ev.parseOutcome = Except.error f ∧
         u = updateStatus_ { r with pos_ := jsLength ev.responseText }
               XhrStreamReaderStatus.BAD_DATA ∧
         c = clear_ u.1 ∧
         decodeStep ev r = Sum.inl
           (c.1, Effect.parseCall r.pos_ (jsSubstr ev.responseText r.pos_) ::
             Effect.logError :: (u.2 ++ c.2))))) := by
  by_cases hlt : r.pos_ < jsLength ev.responseText
  · refine Or.inr ⟨hlt, ?_⟩
    cases hout : ev.parseOutcome with
    | error f =>
        refine Or.inr (Or.inr (Or.inr (Or.inr ⟨f, _, _, rfl, rfl, rfl, ?_⟩)))
        unfold decodeStep
        simp [hlt, hout]
    | ok msgs =>
        cases msgs with
        | none =>
            refine Or.inl ⟨rfl, ?_⟩
            unfold decodeStep
            simp [hlt, hout]
        | some ms =>
            by_cases hdh : r.dataHandler_ = true
            · by_cases hth : ev.dataHandlerThrows = true
              · refine Or.inr (Or.inr (Or.inr (Or.inl
                  ⟨ms, _, _, rfl, hdh, hth, rfl, rfl, ?_⟩)))
                unfold decodeStep
                simp [hlt, hout, hdh, hth]
              · refine Or.inr (Or.inr (Or.inl ⟨ms, rfl, hdh, ?_, ?_⟩))
                · simpa using hth
                · unfold decodeStep
                  simp [hlt, hout, hdh, hth]
            · refine Or.inr (Or.inl ⟨ms, rfl, ?_, ?_⟩)
              · simpa using hdh
              · unfold decodeStep
                simp [hlt, hout, hdh]
  · exact Or.inl ⟨hlt, by unfold decodeStep; simp [hlt]⟩

theorem finishStep_shape (ev : XhrEvent) (r : XhrStreamReader) :
    (ev.readyState = ReadyStateCOMPLETE ∧
      ∃ u c,
        u = updateStatus_ r
          (if jsLength ev.responseText = 0 then XhrStreamReaderStatus.NO_DATA
           else XhrStreamReaderStatus.SUCCESS) ∧
        c = clear_ u.1 ∧
        finishStep ev r = (c.1, u.2 ++ c.2)) ∨
    (ev.readyState ≠ ReadyStateCOMPLETE ∧
      finishStep ev r = updateStatus_ r XhrStreamReaderStatus.ACTIVE) := by
  by_cases h : ev.readyState = ReadyStateCOMPLETE
  · exact Or.inl ⟨h, _, _, rfl, rfl, by unfold finishStep; simp [h]⟩
  · exact Or.inr ⟨h, by unfold finishStep; simp [h]⟩

/-! ### Shape of a full event delivery -/

theorem deliverEvent_shape (ev : XhrEvent) (r : XhrStreamReader) :
    (r.listening = false ∧ deliverEvent ev r = (r, [])) ∨
    (r.listening = true ∧ some ev.target ≠ r.xhr_ ∧
      deliverEvent ev r = (r, [Effect.warn])) ∨
    (r.listening = true ∧ some ev.target = r.xhr_ ∧
      (ev.readyState < ReadyStateINTERACTIVE ∨
        (ev.readyState = ReadyStateINTERACTIVE ∧ ev.responseText = "")) ∧
      deliverEvent ev r = (r, [])) ∨
    (r.listening = true ∧ some ev.target = r.xhr_ ∧
      ¬ (ev.readyState < ReadyStateINTERACTIVE ∨
        (ev.readyState = ReadyStateINTERACTIVE ∧ ev.responseText = "")) ∧
      ∃ c s e1,
        c = classifyStep ev r ∧
        s = selectStep ev c.1 ∧
        e1 = (if (ev.statusCode = HttpStatusOK ∨
                  ev.statusCode = HttpStatusPARTIAL_CONTENT) ∧
                 ev.responseText = ""
              then c.2 ++ [Effect.warn] else c.2) ∧
        ((XhrStreamReaderStatus.SUCCESS.toNat < s.1.status_.toNat ∧
           deliverEvent ev r = ((clear_ s.1).1, e1 ++ s.2 ++ (clear_ s.1).2)) ∨
         (¬ XhrStreamReaderStatus.SUCCESS.toNat < s.1.status_.toNat ∧
           ((∃ d, decodeStep ev s.1 = Sum.inl d ∧
              deliverEvent ev r = (d.1, e1 ++ s.2 ++ d.2)) ∨
            (∃ d, decodeStep ev s.1 = Sum.inr d ∧
              deliverEvent ev r = ((finishStep ev d.1).1,
                e1 ++ s.2 ++ d.2 ++ (finishStep ev d.1).2)))))) := by
  by_cases hl : r.listening = true
  · by_cases ht : some ev.target = r.xhr_
    · by_cases hg : ev.readyState < ReadyStateINTERACTIVE ∨
        (ev.readyState = ReadyStateINTERACTIVE ∧ ev.responseText = "")
      · refine Or.inr (Or.inr (Or.inl ⟨hl, ht, hg, ?_⟩))
        unfold deliverEvent readyStateChangeHandler_ onReadyStateChanged_
        simp [hl, ht, hg]
      · refine Or.inr (Or.inr (Or.inr ⟨hl, ht, hg, _, _, _, rfl, rfl, rfl, ?_⟩))
        by_cases hsc : XhrStreamReaderStatus.SUCCESS.toNat <
            (selectStep ev (classifyStep ev r).1).1.status_.toNat
        · refine Or.inl ⟨hsc, ?_⟩
          unfold deliverEvent readyStateChangeHandler_ onReadyStateChanged_
          simp [hl, ht, hg, hsc]
        · refine Or.inr ⟨hsc, ?_⟩
          cases hd : decodeStep ev (selectStep ev (classifyStep ev r).1).1 with
          | inl d =>
              refine Or.inl ⟨d, rfl, ?_⟩
              unfold deliverEvent readyStateChangeHandler_ onReadyStateChanged_
              simp [hl, ht, hg, hsc, hd]
          | inr d =>
              refine Or.inr ⟨d, rfl, ?_⟩
              unfold deliverEvent readyStateChangeHandler_ onReadyStateChanged_
              simp [hl, ht, hg, hsc, hd]
    · refine Or.inr (Or.inl ⟨hl, ht, ?_⟩)
      unfold deliverEvent readyStateChangeHandler_
      simp [hl, ht]
  · refine Or.inl ⟨by simpa using hl, ?_⟩
    unfold deliverEvent
    simp [hl]

/-! ### Cons lemmas for the trace counters -/

theorem abortCount_cons (e : Effect) (l : List Effect) :
    abortCount (e :: l) =
      (if e = Effect.abortCall then 1 else 0) + abortCount l := by
  by_cases h : e = Effect.abortCall
  · simp [abortCount, List.filter_cons, h]
    omega
  · simp [abortCount, List.filter_cons, h]

theorem disposeCount_cons (e : Effect) (l : List Effect) :
    disposeCount (e :: l) =
      (if e = Effect.disposeCall then 1 else 0) + disposeCount l := by
  by_cases h : e = Effect.disposeCall
  · simp [disposeCount, List.filter_cons, h]
    omega
  · simp [disposeCount, List.filter_cons, h]

theorem selectCount_cons_selectCall (k : Option ParserKind) (l : List Effect) :
    selectCount (Effect.selectCall k :: l) = 1 + selectCount l := by
  simp [selectCount, List.filter_cons]
  omega

theorem selectCount_cons_other (e : Effect) (l : List Effect)
    (h : ∀ k, e ≠ Effect.selectCall k) :
    selectCount (e :: l) = selectCount l := by
  cases e <;> simp [selectCount, List.filter_cons] at h ⊢

theorem statusCalls_cons_statusCall (s : XhrStreamReaderStatus) (l : List Effect) :
    statusCalls (Effect.statusCall s :: l) = s :: statusCalls l := by
  simp [statusCalls, List.filterMap_cons]

theorem statusCalls_cons_other (e : Effect) (l : List Effect)
    (h : ∀ s, e ≠ Effect.statusCall s) :
    statusCalls (e :: l) = statusCalls l := by
  cases e <;> simp [statusCalls, List.filterMap_cons] at h ⊢

theorem dataCalls_cons_dataCall (ms : List Nat) (l : List Effect) :
    dataCalls (Effect.dataCall ms :: l) = ms :: dataCalls l := by
  simp [dataCalls, List.filterMap_cons]

theorem dataCalls_cons_other (e : Effect) (l : List Effect)
    (h : ∀ ms, e ≠ Effect.dataCall ms) :
    dataCalls (e :: l) = dataCalls l := by
  cases e <;> simp [dataCalls, List.filterMap_cons] at h ⊢

theorem parseCalls_cons_parseCall (p : Nat) (d : String) (l : List Effect) :
    parseCalls (Effect.parseCall p d :: l) = (p, d) :: parseCalls l := by
  simp [parseCalls, List.filterMap_cons]

theorem parseCalls_cons_other (e : Effect) (l : List Effect)
    (h : ∀ p d, e ≠ Effect.parseCall p d) :
    parseCalls (e :: l) = parseCalls l := by
  cases e <;> simp [parseCalls, List.filterMap_cons] at h ⊢

/-! ### Field preservation and trace contents of the blocks -/

theorem classifyStep_fields (ev : XhrEvent) (r : XhrStreamReader) :
    (classifyStep ev r).1.xhr_ = r.xhr_ ∧
    (classifyStep ev r).1.parser_ = r.parser_ ∧
    (classifyStep ev r).1.pos_ = r.pos_ ∧
    (classifyStep ev r).1.listening = r.listening ∧
    (classifyStep ev r).1.statusHandler_ = r.statusHandler_ ∧
    (classifyStep ev r).1.dataHandler_ = r.dataHandler_ := by
  rcases classifyStep_shape ev r with h | ⟨s, _, _, h⟩ <;> rw [h]
  · exact ⟨rfl, rfl, rfl, rfl, rfl, rfl⟩
  · rw [updateStatus_fst]
    exact ⟨rfl, rfl, rfl, rfl, rfl, rfl⟩

theorem classifyStep_counts (ev : XhrEvent) (r : XhrStreamReader) :
    abortCount (classifyStep ev r).2 = 0 ∧
    disposeCount (classifyStep ev r).2 = 0 ∧
    selectCount (classifyStep ev r).2 = 0 ∧
    dataCalls (classifyStep ev r).2 = [] ∧
    parseCalls (classifyStep ev r).2 = [] := by
  rcases classifyStep_shape ev r with h | ⟨s, _, _, h⟩ <;> rw [h]
  · simp [abortCount, disposeCount, selectCount, dataCalls, parseCalls]
  · exact updateStatus_counts _ _

theorem selectStep_fields (ev : XhrEvent) (r : XhrStreamReader) :
    (selectStep ev r).1.xhr_ = r.xhr_ ∧
    (selectStep ev r).1.pos_ = r.pos_ ∧
    (selectStep ev r).1.listening = r.listening ∧
    (selectStep ev r).1.statusHandler_ = r.statusHandler_ ∧
    (selectStep ev r).1.dataHandler_ = r.dataHandler_ := by
  rcases selectStep_shape ev r with ⟨_, h⟩ | ⟨_, k, _, h⟩ | ⟨_, _, h⟩ <;> rw [h]
  · exact ⟨rfl, rfl, rfl, rfl, rfl⟩
  · exact ⟨rfl, rfl, rfl, rfl, rfl⟩
  · rw [updateStatus_fst]
    exact ⟨rfl, rfl, rfl, rfl, rfl⟩

theorem selectStep_counts (ev : XhrEvent) (r : XhrStreamReader) :
    abortCount (selectStep ev r).2 = 0 ∧
    disposeCount (selectStep ev r).2 = 0 ∧
    dataCalls (selectStep ev r).2 = [] ∧
    parseCalls (selectStep ev r).2 = [] := by
  rcases selectStep_shape ev r with ⟨_, h⟩ | ⟨_, k, _, h⟩ | ⟨_, _, h⟩ <;> rw [h]
  · simp [abortCount, disposeCount, dataCalls, parseCalls]
  · simp [abortCount, disposeCount, dataCalls, parseCalls]
  · obtain ⟨h1, h2, h3, h4, h5⟩ := updateStatus_counts r XhrStreamReaderStatus.BAD_DATA
    refine ⟨?_, ?_, ?_, ?_⟩
    · rw [abortCount_cons]
      simp [h1]
    · rw [disposeCount_cons]
      simp [h2]
    · rw [dataCalls_cons_other _ _ (by intro ms h; cases h)]
      exact h4
    · rw [parseCalls_cons_other _ _ (by intro p d h; cases h)]
      exact h5

theorem decodeStep_inl_facts (ev : XhrEvent) (r : XhrStreamReader)
    (d : XhrStreamReader × List Effect) (h : decodeStep ev r = Sum.inl d) :
    d.1.status_ = XhrStreamReaderStatus.BAD_DATA ∧ d.1.listening = false ∧
    d.1.xhr_ = none ∧ d.1.parser_ = r.parser_ ∧
    d.1.statusHandler_ = r.statusHandler_ ∧ d.1.dataHandler_ = r.dataHandler_ ∧
    d.1.pos_ = jsLength ev.responseText ∧ r.pos_ < jsLength ev.responseText ∧
    abortCount d.2 = (if r.xhr_.isSome then 1 else 0) ∧
    disposeCount d.2 = (if r.xhr_.isSome then 1 else 0) ∧
    selectCount d.2 = 0 ∧
    statusCalls d.2 =
      (if r.status_ ≠ XhrStreamReaderStatus.BAD_DATA ∧ r.statusHandler_ = true
       then [XhrStreamReaderStatus.BAD_DATA] else []) ∧
    parseCalls d.2 = [(r.pos_, jsSubstr ev.responseText r.pos_)] ∧
    (dataCalls d.2 = [] ∨
      ∃ ms, ev.parseOutcome = Except.ok (some ms) ∧ ev.dataHandlerThrows = true ∧
        r.dataHandler_ = true ∧ dataCalls d.2 = [ms]) := by
  rcases decodeStep_shape ev r with ⟨hlt, heq⟩ | ⟨hlt, hcase⟩
  · rw [heq] at h
    cases h
  · rcases hcase with ⟨_, heq⟩ | ⟨ms, _, _, heq⟩ | ⟨ms, _, _, _, heq⟩ |
      ⟨ms, u, c, hout, hdh, hth, hu, hc, heq⟩ | ⟨f, u, c, hout, hu, hc, heq⟩
    · rw [heq] at h
      cases h
    · rw [heq] at h
      cases h
    · rw [heq] at h
      cases h
    · rw [heq] at h
      injection h with h
      subst h
      subst hc
      subst hu
      obtain ⟨cu1, cu2, cu3, cu4, cu5⟩ :=
        updateStatus_counts { r with pos_ := jsLength ev.responseText }
          XhrStreamReaderStatus.BAD_DATA
      obtain ⟨cc1, cc2, cc3, cc4, cc5, cc6⟩ :=
        clear_counts (updateStatus_ { r with pos_ := jsLength ev.responseText }
          XhrStreamReaderStatus.BAD_DATA).1
      refine ⟨?_, ?_, ?_, ?_, ?_, ?_, ?_, hlt, ?_, ?_, ?_, ?_, ?_, ?_⟩
      · rw [clear_fst, updateStatus_fst]
      · rw [clear_fst]
      · rw [clear_fst]
      · rw [clear_fst, updateStatus_fst]
      · rw [clear_fst, updateStatus_fst]
      · rw [clear_fst, updateStatus_fst]
      · rw [clear_fst, updateStatus_fst]
      · rw [abortCount_cons, abortCount_cons, abortCount_cons,
          abortCount_append, cu1, cc1, updateStatus_fst]
        simp
      · rw [disposeCount_cons, disposeCount_cons, disposeCount_cons,
          disposeCount_append, cu2, cc2, updateStatus_fst]
        simp
      · rw [selectCount_cons_other _ _ (by intro k hk; cases hk),
          selectCount_cons_other _ _ (by intro k hk; cases hk),
          selectCount_cons_other _ _ (by intro k hk; cases hk),
          selectCount_append, cu3, cc3]
      · rw [statusCalls_cons_other _ _ (by intro s hs; cases hs),
          statusCalls_cons_other _ _ (by intro s hs; cases hs),
          statusCalls_cons_other _ _ (by intro s hs; cases hs),
          statusCalls_append, updateStatus_statusCalls, cc4]
        simp
      · rw [parseCalls_cons_parseCall,
          parseCalls_cons_other _ _ (by intro p dd hp; cases hp),
          parseCalls_cons_other _ _ (by intro p dd hp; cases hp),
          parseCalls_append, cu5, cc6]
        simp
      · refine Or.inr ⟨ms, hout, hth, hdh, ?_⟩
        rw [dataCalls_cons_other _ _ (by intro m hm; cases hm),
          dataCalls_cons_dataCall,
          dataCalls_cons_other _ _ (by intro m hm; cases hm),
          dataCalls_append, cu4, cc5]
        simp
    · rw [heq] at h
      injection h with h
      subst h
      subst hc
      subst hu
      obtain ⟨cu1, cu2, cu3, cu4, cu5⟩ :=
        updateStatus_counts { r with pos_ := jsLength ev.responseText }
          XhrStreamReaderStatus.BAD_DATA
      obtain ⟨cc1, cc2, cc3, cc4, cc5, cc6⟩ :=
        clear_counts (updateStatus_ { r with pos_ := jsLength ev.responseText }
          XhrStreamReaderStatus.BAD_DATA).1
      refine ⟨?_, ?_, ?_, ?_, ?_, ?_, ?_, hlt, ?_, ?_, ?_, ?_, ?_, ?_⟩
      · rw [clear_fst, updateStatus_fst]
      · rw [clear_fst]
      · rw [clear_fst]
      · rw [clear_fst, updateStatus_fst]
      · rw [clear_fst, updateStatus_fst]
      · rw [clear_fst, updateStatus_fst]
      · rw [clear_fst, updateStatus_fst]
      · rw [abortCount_cons, abortCount_cons,
          abortCount_append, cu1, cc1, updateStatus_fst]
        simp
      · rw [disposeCount_cons, disposeCount_cons,
          disposeCount_append, cu2, cc2, updateStatus_fst]
        simp
      · rw [selectCount_cons_other _ _ (by intro k hk; cases hk),
          selectCount_cons_other _ _ (by intro k hk; cases hk),
          selectCount_append, cu3, cc3]
      · rw [statusCalls_cons_other _ _ (by intro s hs; cases hs),
          statusCalls_cons_other _ _ (by intro s hs; cases hs),
          statusCalls_append, updateStatus_statusCalls, cc4]
        simp
      · rw [parseCalls_cons_parseCall,
          parseCalls_cons_other _ _ (by intro p dd hp; cases hp),
          parseCalls_append, cu5, cc6]
        simp
      · refine Or.inl ?_
        rw [dataCalls_cons_other _ _ (by intro m hm; cases hm),
          dataCalls_cons_other _ _ (by intro m hm; cases hm),
          dataCalls_append, cu4, cc5]
        simp

theorem decodeStep_inr_facts (ev : XhrEvent) (r : XhrStreamReader)
    (d : XhrStreamReader × List Effect) (h : decodeStep ev r = Sum.inr d) :
    d.1.xhr_ = r.xhr_ ∧ d.1.parser_ = r.parser_ ∧ d.1.status_ = r.status_ ∧
    d.1.listening = r.listening ∧ d.1.statusHandler_ = r.statusHandler_ ∧
    d.1.dataHandler_ = r.dataHandler_ ∧
    abortCount d.2 = 0 ∧ disposeCount d.2 = 0 ∧ selectCount d.2 = 0 ∧
    statusCalls d.2 = [] ∧
    ((¬ r.pos_ < jsLength ev.responseText ∧ d.1.pos_ = r.pos_ ∧
       parseCalls d.2 = [] ∧ dataCalls d.2 = []) ∨
     (r.pos_ < jsLength ev.responseText ∧
       d.1.pos_ = jsLength ev.responseText ∧
       parseCalls d.2 = [(r.pos_, jsSubstr ev.responseText r.pos_)] ∧
       ((ev.parseOutcome = Except.ok none ∧ dataCalls d.2 = []) ∨
        (∃ ms, ev.parseOutcome = Except.ok (some ms) ∧ r.dataHandler_ = false ∧
          dataCalls d.2 = []) ∨
        (∃ ms, ev.parseOutcome = Except.ok (some ms) ∧ r.dataHandler_ = true ∧
          ev.dataHandlerThrows = false ∧ dataCalls d.2 = [ms])))) := by
  rcases decodeStep_shape ev r with ⟨hlt, heq⟩ | ⟨hlt, hcase⟩
  · rw [heq] at h
    injection h with h
    subst h
    refine ⟨rfl, rfl, rfl, rfl, rfl, rfl, ?_, ?_, ?_, ?_, Or.inl ⟨hlt, rfl, ?_, ?_⟩⟩ <;>
      simp [abortCount, disposeCount, selectCount, statusCalls, parseCalls, dataCalls]
  · rcases hcase with ⟨hout, heq⟩ | ⟨ms, hout, hdh, heq⟩ | ⟨ms, hout, hdh, hth, heq⟩ |
      ⟨ms, u, c, hout, hdh, hth, hu, hc, heq⟩ | ⟨f, u, c, hout, hu, hc, heq⟩
    · rw [heq] at h
      injection h with h
      subst h
      refine ⟨rfl, rfl, rfl, rfl, rfl, rfl, ?_, ?_, ?_, ?_,
        Or.inr ⟨hlt, rfl, ?_, Or.inl ⟨hout, ?_⟩⟩⟩ <;>
        simp [abortCount, disposeCount, selectCount, statusCalls, parseCalls, dataCalls]
    · rw [heq] at h
      injection h with h
      subst h
      refine ⟨rfl, rfl, rfl, rfl, rfl, rfl, ?_, ?_, ?_, ?_,
        Or.inr ⟨hlt, rfl, ?_, Or.inr (Or.inl ⟨ms, hout, hdh, ?_⟩)⟩⟩ <;>
        simp [abortCount, disposeCount, selectCount, statusCalls, parseCalls, dataCalls]
    · rw [heq] at h
      injection h with h
      subst h
      refine ⟨rfl, rfl, rfl, rfl, rfl, rfl, ?_, ?_, ?_, ?_,
        Or.inr ⟨hlt, rfl, ?_, Or.inr (Or.inr ⟨ms, hout, hdh, hth, ?_⟩)⟩⟩ <;>
        simp [abortCount, disposeCount, selectCount, statusCalls, parseCalls, dataCalls]
    · rw [heq] at h
      cases h
    · rw [heq] at h
      cases h

theorem finishStep_facts (ev : XhrEvent) (r : XhrStreamReader) :
    ∃ tgt,
      ((ev.readyState = ReadyStateCOMPLETE ∧
         tgt = (if jsLength ev.responseText = 0 then XhrStreamReaderStatus.NO_DATA
                else XhrStreamReaderStatus.SUCCESS) ∧
         (finishStep ev r).1.listening = false ∧ (finishStep ev r).1.xhr_ = none ∧
         abortCount (finishStep ev r).2 = (if r.xhr_.isSome then 1 else 0) ∧
         disposeCount (finishStep ev r).2 = (if r.xhr_.isSome then 1 else 0)) ∨
       (ev.readyState ≠ ReadyStateCOMPLETE ∧ tgt = XhrStreamReaderStatus.ACTIVE ∧
         (finishStep ev r).1.listening = r.listening ∧
         (finishStep ev r).1.xhr_ = r.xhr_ ∧
         abortCount (finishStep ev r).2 = 0 ∧
         disposeCount (finishStep ev r).2 = 0)) ∧
      (finishStep ev r).1.status_ = tgt ∧
      (finishStep ev r).1.parser_ = r.parser_ ∧
      (finishStep ev r).1.pos_ = r.pos_ ∧
      (finishStep ev r).1.statusHandler_ = r.statusHandler_ ∧
      (finishStep ev r).1.dataHandler_ = r.dataHandler_ ∧
      dataCalls (finishStep ev r).2 = [] ∧
      parseCalls (finishStep ev r).2 = [] ∧
      selectCount (finishStep ev r).2 = 0 ∧
      statusCalls (finishStep ev r).2 =
        (if r.status_ ≠ tgt ∧ r.statusHandler_ = true then [tgt] else []) := by
  rcases finishStep_shape ev r with ⟨h4, u, c, hu, hc, heq⟩ | ⟨h4, heq⟩
  · subst hc
    subst hu
    refine ⟨_, Or.inl ⟨h4, rfl, ?_, ?_, ?_, ?_⟩, ?_, ?_, ?_, ?_, ?_, ?_, ?_, ?_, ?_⟩ <;>
      rw [heq]
    · rw [clear_fst]
    · rw [clear_fst]
    · obtain ⟨c1, _, _, _, _, _⟩ := clear_counts (updateStatus_ r _).1
      rw [abortCount_append, (updateStatus_counts r _).1, c1, updateStatus_fst]
      simp
    · obtain ⟨_, c2, _, _, _, _⟩ := clear_counts (updateStatus_ r _).1
      rw [disposeCount_append, (updateStatus_counts r _).2.1, c2, updateStatus_fst]
      simp
    · rw [clear_fst, updateStatus_fst]
    · rw [clear_fst, updateStatus_fst]
    · rw [clear_fst, updateStatus_fst]
    · rw [clear_fst, updateStatus_fst]
    · rw [clear_fst, updateStatus_fst]
    · obtain ⟨_, _, _, _, c5, _⟩ := clear_counts (updateStatus_ r _).1
      rw [dataCalls_append, (updateStatus_counts r _).2.2.2.1, c5]
      simp
    · obtain ⟨_, _, _, _, _, c6⟩ := clear_counts (updateStatus_ r _).1
      rw [parseCalls_append, (updateStatus_counts r _).2.2.2.2, c6]
      simp
    · obtain ⟨_, _, c3, _, _, _⟩ := clear_counts (updateStatus_ r _).1
      rw [selectCount_append, (updateStatus_counts r _).2.2.1, c3]
    · obtain ⟨_, _, _, c4, _, _⟩ := clear_counts (updateStatus_ r _).1
      rw [statusCalls_append, updateStatus_statusCalls, c4]
      simp
  · refine ⟨XhrStreamReaderStatus.ACTIVE,
      Or.inr ⟨h4, rfl, ?_, ?_, ?_, ?_⟩, ?_, ?_, ?_, ?_, ?_, ?_, ?_, ?_, ?_⟩ <;>
      rw [heq]
    · rw [updateStatus_fst]
    · rw [updateStatus_fst]
    · exact (updateStatus_counts r _).1
    · exact (updateStatus_counts r _).2.1
    · rw [updateStatus_fst]
    · rw [updateStatus_fst]
    · rw [updateStatus_fst]
    · rw [updateStatus_fst]
    · rw [updateStatus_fst]
    · exact (updateStatus_counts r _).2.2.2.1
    · exact (updateStatus_counts r _).2.2.2.2
    · exact (updateStatus_counts r _).2.2.1
    · exact updateStatus_statusCalls r _

/-! ### The optional empty-body warning does not disturb the other counters -/

theorem warnAdj_abortCount (cond : Prop) [Decidable cond] (l : List Effect) :
    abortCount (if cond then l ++ [Effect.warn] else l) = abortCount l := by
  by_cases h : cond <;> simp [h, abortCount_append, abortCount]

theorem warnAdj_disposeCount (cond : Prop) [Decidable cond] (l : List Effect) :
    disposeCount (if cond then l ++ [Effect.warn] else l) = disposeCount l := by
  by_cases h : cond <;> simp [h, disposeCount_append, disposeCount]

theorem warnAdj_selectCount (cond : Prop) [Decidable cond] (l : List Effect) :
    selectCount (if cond then l ++ [Effect.warn] else l) = selectCount l := by
  by_cases h : cond <;> simp [h, selectCount_append, selectCount]

theorem warnAdj_statusCalls (cond : Prop) [Decidable cond] (l : List Effect) :
    statusCalls (if cond then l ++ [Effect.warn] else l) = statusCalls l := by
  by_cases h : cond <;> simp [h, statusCalls_append, statusCalls]

theorem warnAdj_dataCalls (cond : Prop) [Decidable cond] (l : List Effect) :
    dataCalls (if cond then l ++ [Effect.warn] else l) = dataCalls l := by
  by_cases h : cond <;> simp [h, dataCalls_append, dataCalls]

theorem warnAdj_parseCalls (cond : Prop) [Decidable cond] (l : List Effect) :
    parseCalls (if cond then l ++ [Effect.warn] else l) = parseCalls l := by
  by_cases h : cond <;> simp [h, parseCalls_append, parseCalls]

/-! ### Per-delivery properties -/

theorem deliver_cursor (ev : XhrEvent) (r : XhrStreamReader) :
    ((deliverEvent ev r).1.pos_ = r.pos_ ∧ parseCalls (deliverEvent ev r).2 = []) ∨
    (r.pos_ < jsLength ev.responseText ∧
      (deliverEvent ev r).1.pos_ = jsLength ev.responseText ∧
      parseCalls (deliverEvent ev r).2 =
        [(r.pos_, jsSubstr ev.responseText r.pos_)]) := by
  rcases deliverEvent_shape ev r with ⟨_, hres⟩ | ⟨_, _, hres⟩ | ⟨_, _, _, hres⟩ |
    ⟨hl, ht, hg, c, s, e1, hcdef, hsdef, he1def, hrest⟩
  · rw [hres]
    exact Or.inl ⟨rfl, rfl⟩
  · rw [hres]
    exact Or.inl ⟨rfl, by simp [parseCalls]⟩
  · rw [hres]
    exact Or.inl ⟨rfl, rfl⟩
  · subst hcdef
    subst hsdef
    subst he1def
    obtain ⟨cx, cp, cpos, cl, csh, cdh⟩ := classifyStep_fields ev r
    obtain ⟨sx, spos, sl, ssh, sdh⟩ := selectStep_fields ev (classifyStep ev r).1
    have hsp : (selectStep ev (classifyStep ev r).1).1.pos_ = r.pos_ := by
      rw [spos, cpos]
    have hpe1 : parseCalls
        (if (ev.statusCode = HttpStatusOK ∨
             ev.statusCode = HttpStatusPARTIAL_CONTENT) ∧ ev.responseText = ""
         then (classifyStep ev r).2 ++ [Effect.warn] else (classifyStep ev r).2) = [] := by
      rw [warnAdj_parseCalls]
      exact (classifyStep_counts ev r).2.2.2.2
    have hps : parseCalls (selectStep ev (classifyStep ev r).1).2 = [] :=
      (selectStep_counts ev (classifyStep ev r).1).2.2.2
    rcases hrest with ⟨hsc, hres⟩ | ⟨hsc, ⟨d, hd, hres⟩ | ⟨d, hd, hres⟩⟩
    · rw [hres]
      refine Or.inl ⟨?_, ?_⟩
      · rw [clear_fst]
        exact hsp
      · rw [parseCalls_append, parseCalls_append, hpe1, hps,
          (clear_counts _).2.2.2.2.2]
        simp
    · obtain ⟨_, _, _, _, _, _, dpos, dlt, _, _, _, _, dparse, _⟩ :=
        decodeStep_inl_facts ev _ d hd
      rw [hres]
      refine Or.inr ⟨?_, ?_, ?_⟩
      · rw [← hsp]
        exact dlt
      · exact dpos
      · rw [parseCalls_append, parseCalls_append, hpe1, hps, dparse, hsp]
        simp
    · obtain ⟨_, _, _, _, _, _, _, _, _, _, hcases⟩ := decodeStep_inr_facts ev _ d hd
      obtain ⟨tgt, _, _, _, fpos, _, _, _, fparse, _, _⟩ := finishStep_facts ev d.1
      rcases hcases with ⟨hnlt, dpos, dparse, _⟩ | ⟨hlt2, dpos, dparse, _⟩
      · rw [hres]
        refine Or.inl ⟨?_, ?_⟩
        · rw [fpos, dpos, hsp]
        · rw [parseCalls_append, parseCalls_append, parseCalls_append,
            hpe1, hps, dparse, fparse]
          simp
      · rw [hres]
        refine Or.inr ⟨?_, ?_, ?_⟩
        · rw [← hsp]
          exact hlt2
        · rw [fpos, dpos]
        · rw [parseCalls_append, parseCalls_append, parseCalls_append,
            hpe1, hps, dparse, fparse, hsp]
          simp

theorem deliver_inv (ev : XhrEvent) (r : XhrStreamReader)
    (hInv : r.listening = true →
      r.status_ = XhrStreamReaderStatus.INIT ∨ r.status_ = XhrStreamReaderStatus.ACTIVE) :
    (deliverEvent ev r).1.listening = true →
      (deliverEvent ev r).1.status_ = XhrStreamReaderStatus.INIT ∨
      (deliverEvent ev r).1.status_ = XhrStreamReaderStatus.ACTIVE := by
  rcases deliverEvent_shape ev r with ⟨_, hres⟩ | ⟨_, _, hres⟩ | ⟨_, _, _, hres⟩ |
    ⟨hl, ht, hg, c, s, e1, hcdef, hsdef, he1def, hrest⟩
  · rw [hres]
    exact hInv
  · rw [hres]
    exact hInv
  · rw [hres]
    exact hInv
  · subst hcdef
    subst hsdef
    subst he1def
    rcases hrest with ⟨hsc, hres⟩ | ⟨hsc, ⟨d, hd, hres⟩ | ⟨d, hd, hres⟩⟩
    · rw [hres, clear_fst]
      intro h
      cases h
    · obtain ⟨_, dl, _, _, _, _, _, _, _, _, _, _, _, _⟩ :=
        decodeStep_inl_facts ev _ d hd
      rw [hres]
      rw [dl]
      intro h
      cases h
    · obtain ⟨tgt, hbranch, fstat, _, _, _, _, _, _, _, _⟩ := finishStep_facts ev d.1
      rcases hbranch with ⟨_, _, flis, _, _, _⟩ | ⟨_, htgt, flis, _, _, _⟩
      · rw [hres, flis]
        intro h
        cases h
      · rw [hres, fstat, htgt]
        intro _
        exact Or.inr rfl

theorem deliver_inv2 (ev : XhrEvent) (r : XhrStreamReader)
    (h2 : r.listening = false → r.xhr_ = none) :
    (deliverEvent ev r).1.listening = false → (deliverEvent ev r).1.xhr_ = none := by
  rcases deliverEvent_shape ev r with ⟨_, hres⟩ | ⟨_, _, hres⟩ | ⟨_, _, _, hres⟩ |
    ⟨hl, ht, hg, c, s, e1, hcdef, hsdef, he1def, hrest⟩
  · rw [hres]
    exact h2
  · rw [hres]
    exact h2
  · rw [hres]
    exact h2
  · subst hcdef
    subst hsdef
    subst he1def
    obtain ⟨cx, cp, cpos, cl, csh, cdh⟩ := classifyStep_fields ev r
    obtain ⟨sx, spos, sl, ssh, sdh⟩ := selectStep_fields ev (classifyStep ev r).1
    rcases hrest with ⟨hsc, hres⟩ | ⟨hsc, ⟨d, hd, hres⟩ | ⟨d, hd, hres⟩⟩
    · rw [hres, clear_fst]
      intro _
      rfl
    · obtain ⟨_, _, dx, _, _, _, _, _, _, _, _, _, _, _⟩ :=
        decodeStep_inl_facts ev _ d hd
      rw [hres]
      intro _
      exact dx
    · obtain ⟨_, _, _, dl, _, _, _, _, _, _, _⟩ := decodeStep_inr_facts ev _ d hd
      obtain ⟨tgt, hbranch, _, _, _, _, _, _, _, _, _⟩ := finishStep_facts ev d.1
      rcases hbranch with ⟨_, _, flis, fx, _, _⟩ | ⟨_, _, flis, fx, _, _⟩
      · rw [hres]
        intro _
        exact fx
      · rw [hres]
        show (finishStep ev d.1).1.listening = false → (finishStep ev d.1).1.xhr_ = none
        rw [flis, dl, sl, cl]
        intro h
        rw [h] at hl
        cases hl

theorem deliver_abort (ev : XhrEvent) (r : XhrStreamReader) :
    ((deliverEvent ev r).1.xhr_ = r.xhr_ ∧ abortCount (deliverEvent ev r).2 = 0 ∧
      disposeCount (deliverEvent ev r).2 = 0) ∨
    (r.xhr_.isSome = true ∧ (deliverEvent ev r).1.xhr_ = none ∧
      abortCount (deliverEvent ev r).2 = 1 ∧
      disposeCount (deliverEvent ev r).2 = 1) := by
  rcases deliverEvent_shape ev r with ⟨_, hres⟩ | ⟨_, _, hres⟩ | ⟨_, _, _, hres⟩ |
    ⟨hl, ht, hg, c, s, e1, hcdef, hsdef, he1def, hrest⟩
  · rw [hres]
    exact Or.inl ⟨rfl, rfl, rfl⟩
  · rw [hres]
    exact Or.inl ⟨rfl, by simp [abortCount], by simp [disposeCount]⟩
  · rw [hres]
    exact Or.inl ⟨rfl, rfl, rfl⟩
  · subst hcdef
    subst hsdef
    subst he1def
    obtain ⟨cx, cp, cpos, cl, csh, cdh⟩ := classifyStep_fields ev r
    obtain ⟨sx, spos, sl, ssh, sdh⟩ := selectStep_fields ev (classifyStep ev r).1
    have hsxr : (selectStep ev (classifyStep ev r).1).1.xhr_ = r.xhr_ := by
      rw [sx, cx]
    have hae1 : abortCount
        (if (ev.statusCode = HttpStatusOK ∨
             ev.statusCode = HttpStatusPARTIAL_CONTENT) ∧ ev.responseText = ""
         then (classifyStep ev r).2 ++ [Effect.warn] else (classifyStep ev r).2) = 0 := by
      rw [warnAdj_abortCount]
      exact (classifyStep_counts ev r).1
    have hde1 : disposeCount
        (if (ev.statusCode = HttpStatusOK ∨
             ev.statusCode = HttpStatusPARTIAL_CONTENT) ∧ ev.responseText = ""
         then (classifyStep ev r).2 ++ [Effect.warn] else (classifyStep ev r).2) = 0 := by
      rw [warnAdj_disposeCount]
      exact (classifyStep_counts ev r).2.1
    have has : abortCount (selectStep ev (classifyStep ev r).1).2 = 0 :=
      (selectStep_counts ev (classifyStep ev r).1).1
    have hds : disposeCount (selectStep ev (classifyStep ev r).1).2 = 0 :=
      (selectStep_counts ev (classifyStep ev r).1).2.1
    rcases hrest with ⟨hsc, hres⟩ | ⟨hsc, ⟨d, hd, hres⟩ | ⟨d, hd, hres⟩⟩
    · rw [hres]
      obtain ⟨ca, cd, _, _, _, _⟩ := clear_counts (selectStep ev (classifyStep ev r).1).1
      by_cases hx : r.xhr_.isSome = true
      · refine Or.inr ⟨hx, ?_, ?_, ?_⟩
        · rw [clear_fst]
        · rw [abortCount_append, abortCount_append, hae1, has, ca, hsxr, hx]
          simp
        · rw [disposeCount_append, disposeCount_append, hde1, hds, cd, hsxr, hx]
          simp
      · have hxn : r.xhr_ = none := Option.not_isSome_iff_eq_none.mp hx
        refine Or.inl ⟨?_, ?_, ?_⟩
        · rw [clear_fst, hxn]
        · rw [abortCount_append, abortCount_append, hae1, has, ca, hsxr, hxn]
          simp
        · rw [disposeCount_append, disposeCount_append, hde1, hds, cd, hsxr, hxn]
          simp
    · obtain ⟨_, _, dx, _, _, _, _, _, da, dd, _, _, _, _⟩ :=
        decodeStep_inl_facts ev _ d hd
      rw [hres]
      by_cases hx : r.xhr_.isSome = true
      · refine Or.inr ⟨hx, dx, ?_, ?_⟩
        · rw [abortCount_append, abortCount_append, hae1, has, da, hsxr, hx]
          simp
        · rw [disposeCount_append, disposeCount_append, hde1, hds, dd, hsxr, hx]
          simp
      · have hxn : r.xhr_ = none := Option.not_isSome_iff_eq_none.mp hx
        refine Or.inl ⟨?_, ?_, ?_⟩
        · rw [dx, hxn]
        · rw [abortCount_append, abortCount_append, hae1, has, da, hsxr, hxn]
          simp
        · rw [disposeCount_append, disposeCount_append, hde1, hds, dd, hsxr, hxn]
          simp
    · obtain ⟨dx, _, _, _, _, _, da, dd, _, _, _⟩ := decodeStep_inr_facts ev _ d hd
      have hdxr : d.1.xhr_ = r.xhr_ := by rw [dx, hsxr]
      obtain ⟨tgt, hbranch, _, _, _, _, _, _, _, _, _⟩ := finishStep_facts ev d.1
      rcases hbranch with ⟨_, _, _, fx, fa, fd⟩ | ⟨_, _, _, fx, fa, fd⟩
      · rw [hres]
        by_cases hx : r.xhr_.isSome = true
        · refine Or.inr ⟨hx, fx, ?_, ?_⟩
          · rw [abortCount_append, abortCount_append, abortCount_append,
              hae1, has, da, fa, hdxr, hx]
            simp
          · rw [disposeCount_append, disposeCount_append, disposeCount_append,
              hde1, hds, dd, fd, hdxr, hx]
            simp
        · have hxn : r.xhr_ = none := Option.not_isSome_iff_eq_none.mp hx
          refine Or.inl ⟨?_, ?_, ?_⟩
          · rw [fx, hxn]
          · rw [abortCount_append, abortCount_append, abortCount_append,
              hae1, has, da, fa, hdxr, hxn]
            simp
          · rw [disposeCount_append, disposeCount_append, disposeCount_append,
              hde1, hds, dd, fd, hdxr, hxn]
            simp
      · rw [hres]
        refine Or.inl ⟨?_, ?_, ?_⟩
        · rw [fx, hdxr]
        · rw [abortCount_append, abortCount_append, abortCount_append,
            hae1, has, da, fa]
        · rw [disposeCount_append, disposeCount_append, disposeCount_append,
            hde1, hds, dd, fd]

theorem deliver_selectCount (ev : XhrEvent) (r : XhrStreamReader) :
    (selectCount (deliverEvent ev r).2 = 0 ∧
      (deliverEvent ev r).1.parser_ = r.parser_ ∧
      ((deliverEvent ev r).1.listening = true → r.listening = true)) ∨
    (r.parser_ = none ∧ r.listening = true ∧
      selectCount (deliverEvent ev r).2 = 1 ∧
      ((deliverEvent ev r).1.parser_ ≠ none ∨
        (deliverEvent ev r).1.listening = false)) := by
  rcases deliverEvent_shape ev r with ⟨hl0, hres⟩ | ⟨_, _, hres⟩ | ⟨_, _, _, hres⟩ |
    ⟨hl, ht, hg, c, s, e1, hcdef, hsdef, he1def, hrest⟩
  · rw [hres]
    exact Or.inl ⟨rfl, rfl, fun h => h⟩
  · rw [hres]
    exact Or.inl ⟨by simp [selectCount], rfl, fun h => h⟩
  · rw [hres]
    exact Or.inl ⟨rfl, rfl, fun h => h⟩
  · subst hcdef
    subst hsdef
    subst he1def
    obtain ⟨cx, cp, cpos, cl, csh, cdh⟩ := classifyStep_fields ev r
    have hse1 : selectCount
        (if (ev.statusCode = HttpStatusOK ∨
             ev.statusCode = HttpStatusPARTIAL_CONTENT) ∧ ev.responseText = ""
         then (classifyStep ev r).2 ++ [Effect.warn] else (classifyStep ev r).2) = 0 := by
      rw [warnAdj_selectCount]
      exact (classifyStep_counts ev r).2.2.1
    rcases selectStep_shape ev (classifyStep ev r).1 with
      ⟨hpne, hsel⟩ | ⟨hpn, k, hk, hsel⟩ | ⟨hpn, hnone, hsel⟩
    · -- a parser is already selected: no header inspection happens
      have hpr : r.parser_ ≠ none := by rw [← cp]; exact hpne
      have hss : selectCount (selectStep ev (classifyStep ev r).1).2 = 0 := by
        rw [hsel]
        simp [selectCount]
      have hsp : (selectStep ev (classifyStep ev r).1).1.parser_ = r.parser_ := by
        rw [hsel, cp]
      rcases hrest with ⟨hsc, hres⟩ | ⟨hsc, ⟨d, hd, hres⟩ | ⟨d, hd, hres⟩⟩
      · rw [hres]
        refine Or.inl ⟨?_, ?_, ?_⟩
        · rw [selectCount_append, selectCount_append, hse1, hss,
            (clear_counts _).2.2.1]
        · rw [clear_fst]
          exact hsp
        · intro _
          exact hl
      · obtain ⟨_, _, _, dp, _, _, _, _, _, _, ds, _, _, _⟩ :=
          decodeStep_inl_facts ev _ d hd
        rw [hres]
        refine Or.inl ⟨?_, ?_, ?_⟩
        · rw [selectCount_append, selectCount_append, hse1, hss, ds]
        · rw [dp, hsp]
        · intro _
          exact hl
      · obtain ⟨_, dp, _, _, _, _, _, _, ds, _, _⟩ := decodeStep_inr_facts ev _ d hd
        obtain ⟨tgt, _, _, fp, _, _, _, _, _, fs, _⟩ := finishStep_facts ev d.1
        rw [hres]
        refine Or.inl ⟨?_, ?_, ?_⟩
        · rw [selectCount_append, selectCount_append, selectCount_append,
            hse1, hss, ds, fs]
        · rw [fp, dp, hsp]
        · intro _
          exact hl
    · -- fresh reader, header inspection succeeds
      have hpr : r.parser_ = none := by rw [← cp]; exact hpn
      have hss : selectCount (selectStep ev (classifyStep ev r).1).2 = 1 := by
        rw [hsel]
        simp [selectCount]
      have hsp : (selectStep ev (classifyStep ev r).1).1.parser_ = some k := by
        rw [hsel]
      rcases hrest with ⟨hsc, hres⟩ | ⟨hsc, ⟨d, hd, hres⟩ | ⟨d, hd, hres⟩⟩
      · rw [hres]
        refine Or.inr ⟨hpr, hl, ?_, Or.inl ?_⟩
        · rw [selectCount_append, selectCount_append, hse1, hss,
            (clear_counts _).2.2.1]
        · rw [clear_fst]
          show (selectStep ev (classifyStep ev r).1).1.parser_ ≠ none
          rw [hsp]
          simp
      · obtain ⟨_, _, _, dp, _, _, _, _, _, _, ds, _, _, _⟩ :=
          decodeStep_inl_facts ev _ d hd
        rw [hres]
        refine Or.inr ⟨hpr, hl, ?_, Or.inl ?_⟩
        · rw [selectCount_append, selectCount_append, hse1, hss, ds]
        · rw [dp, hsp]
          simp
      · obtain ⟨_, dp, _, _, _, _, _, _, ds, _, _⟩ := decodeStep_inr_facts ev _ d hd
        obtain ⟨tgt, _, _, fp, _, _, _, _, _, fs, _⟩ := finishStep_facts ev d.1
        rw [hres]
        refine Or.inr ⟨hpr, hl, ?_, Or.inl ?_⟩
        · rw [selectCount_append, selectCount_append, selectCount_append,
            hse1, hss, ds, fs]
        · rw [fp, dp, hsp]
          simp
    · -- fresh reader, header inspection fails: `BAD_DATA` and teardown
      have hpr : r.parser_ = none := by rw [← cp]; exact hpn
      have hss : selectCount (selectStep ev (classifyStep ev r).1).2 = 1 := by
        rw [hsel]
        rw [selectCount_cons_selectCall, (updateStatus_counts _ _).2.2.1]
      have hstat : (selectStep ev (classifyStep ev r).1).1.status_ =
          XhrStreamReaderStatus.BAD_DATA := by
        rw [hsel, updateStatus_fst]
      rcases hrest with ⟨hsc, hres⟩ | ⟨hsc, hrest2⟩
      · rw [hres]
        refine Or.inr ⟨hpr, hl, ?_, Or.inr ?_⟩
        · rw [selectCount_append, selectCount_append, hse1, hss,
            (clear_counts _).2.2.1]
        · rw [clear_fst]
      · exfalso
        rw [hstat] at hsc
        exact hsc (by decide)

theorem classifyStep_complete (ev : XhrEvent) (r : XhrStreamReader)
    (h4 : ev.readyState = ReadyStateCOMPLETE) :
    classifyStep ev r = updateStatus_ r
      (if ev.errorCode = ErrorCode.TIMEOUT then XhrStreamReaderStatus.TIMEOUT
       else if ev.errorCode = ErrorCode.ABORT then XhrStreamReaderStatus.CANCELLED
       else if ¬ (ev.statusCode = HttpStatusOK ∨
                  ev.statusCode = HttpStatusPARTIAL_CONTENT)
       then XhrStreamReaderStatus.XHR_ERROR
       else r.status_) := by
  unfold classifyStep
  by_cases h2 : ev.errorCode = ErrorCode.TIMEOUT
  · simp [h4, h2]
  · by_cases h3 : ev.errorCode = ErrorCode.ABORT
    · simp [h4, h2, h3]
    · by_cases hok : ev.statusCode = HttpStatusOK ∨
          ev.statusCode = HttpStatusPARTIAL_CONTENT
      · rw [if_pos h4]
        rw [if_neg h2, if_neg h3, if_neg (not_not_intro hok)]
        rw [if_neg h2, if_neg h3, if_neg (not_not_intro hok)]
        unfold updateStatus_
        simp
      · simp [h4, h2, h3, hok]

theorem deliver_completeFailure (ev : XhrEvent) (r : XhrStreamReader)
    (hl : r.listening = true) (ht : some ev.target = r.xhr_)
    (h4 : ev.readyState = ReadyStateCOMPLETE)
    (hpre : r.status_ = XhrStreamReaderStatus.INIT ∨
            r.status_ = XhrStreamReaderStatus.ACTIVE)
    (hfail : ev.errorCode = ErrorCode.TIMEOUT ∨ ev.errorCode = ErrorCode.ABORT ∨
      ¬ (ev.statusCode = HttpStatusOK ∨
         ev.statusCode = HttpStatusPARTIAL_CONTENT)) :
    parseCalls (deliverEvent ev r).2 = [] ∧
    (deliverEvent ev r).1.listening = false ∧
    (deliverEvent ev r).1.xhr_ = none ∧
    (deliverEvent ev r).1.status_ =
      (if r.parser_ = none ∧
          getParserByResponseHeader_ ev.contentType ev.transferEncoding = none
       then XhrStreamReaderStatus.BAD_DATA
       else if ev.errorCode = ErrorCode.TIMEOUT then XhrStreamReaderStatus.TIMEOUT
       else if ev.errorCode = ErrorCode.ABORT then XhrStreamReaderStatus.CANCELLED
       else XhrStreamReaderStatus.XHR_ERROR) := by
  have h01 : r.status_.toNat ≤ 1 := by
    rcases hpre with h | h <;> rw [h] <;> decide
  -- the classified network-failure status
  have hclass : classifyStep ev r = updateStatus_ r
      (if ev.errorCode = ErrorCode.TIMEOUT then XhrStreamReaderStatus.TIMEOUT
       else if ev.errorCode = ErrorCode.ABORT then XhrStreamReaderStatus.CANCELLED
       else XhrStreamReaderStatus.XHR_ERROR) := by
    rw [classifyStep_complete ev r h4]
    by_cases h2 : ev.errorCode = ErrorCode.TIMEOUT
    · simp [h2]
    · by_cases h3 : ev.errorCode = ErrorCode.ABORT
      · simp [h2, h3]
      · have hns : ¬ (ev.statusCode = HttpStatusOK ∨
            ev.statusCode = HttpStatusPARTIAL_CONTENT) := by
          rcases hfail with h | h | h
          · exact absurd h h2
          · exact absurd h h3
          · exact h
        simp [h2, h3, hns]
  have hs0big : 2 <
      (if ev.errorCode = ErrorCode.TIMEOUT then XhrStreamReaderStatus.TIMEOUT
       else if ev.errorCode = ErrorCode.ABORT then XhrStreamReaderStatus.CANCELLED
       else XhrStreamReaderStatus.XHR_ERROR).toNat := by
    by_cases h2 : ev.errorCode = ErrorCode.TIMEOUT
    · rw [if_pos h2]
      decide
    · by_cases h3 : ev.errorCode = ErrorCode.ABORT
      · rw [if_neg h2, if_pos h3]
        decide
      · rw [if_neg h2, if_neg h3]
        decide
  rcases deliverEvent_shape ev r with ⟨hl0, _⟩ | ⟨_, ht0, _⟩ | ⟨_, _, hg, _⟩ |
    ⟨_, _, hg, c, s, e1, hcdef, hsdef, he1def, hrest⟩
  · rw [hl] at hl0
    cases hl0
  · exact absurd ht ht0
  · rw [h4] at hg
    rcases hg with hg | ⟨hg, _⟩ <;> simp [ReadyStateCOMPLETE, ReadyStateINTERACTIVE] at hg
  · subst hcdef
    subst hsdef
    subst he1def
    have hcstat : (classifyStep ev r).1.status_ =
        (if ev.errorCode = ErrorCode.TIMEOUT then XhrStreamReaderStatus.TIMEOUT
         else if ev.errorCode = ErrorCode.ABORT then XhrStreamReaderStatus.CANCELLED
         else XhrStreamReaderStatus.XHR_ERROR) := by
      rw [hclass, updateStatus_fst]
    have hcpars : (classifyStep ev r).1.parser_ = r.parser_ :=
      (classifyStep_fields ev r).2.1
    have hpe1 : parseCalls
        (if (ev.statusCode = HttpStatusOK ∨
             ev.statusCode = HttpStatusPARTIAL_CONTENT) ∧ ev.responseText = ""
         then (classifyStep ev r).2 ++ [Effect.warn]
         else (classifyStep ev r).2) = [] := by
      rw [warnAdj_parseCalls]
      exact (classifyStep_counts ev r).2.2.2.2
    by_cases hbad : r.parser_ = none ∧
        getParserByResponseHeader_ ev.contentType ev.transferEncoding = none
    · -- selection fails: BAD_DATA overwrites the failure classification
      rcases selectStep_shape ev (classifyStep ev r).1 with
        ⟨hpne, hsel⟩ | ⟨_, k, hk, hsel⟩ | ⟨_, _, hsel⟩
      · exact absurd (by rw [hcpars]; exact hbad.1) hpne
      · rw [hbad.2] at hk
        cases hk
      · have hsstat : (selectStep ev (classifyStep ev r).1).1.status_ =
            XhrStreamReaderStatus.BAD_DATA := by
          rw [hsel, updateStatus_fst]
        rcases hrest with ⟨hsc, hres⟩ | ⟨hsc, _⟩
        · rw [hres]
          refine ⟨?_, ?_, ?_, ?_⟩
          · rw [parseCalls_append, parseCalls_append, hpe1,
              (selectStep_counts _ _).2.2.2, (clear_counts _).2.2.2.2.2]
            simp
          · rw [clear_fst]
          · rw [clear_fst]
          · rw [clear_fst]
            show (selectStep ev (classifyStep ev r).1).1.status_ = _
            rw [hsstat, if_pos hbad]
        · exfalso
          rw [hsstat] at hsc
          exact hsc (by decide)
    · -- a parser exists or is selected: the failure classification stands
      have hsstat : (selectStep ev (classifyStep ev r).1).1.status_ =
          (if ev.errorCode = ErrorCode.TIMEOUT then XhrStreamReaderStatus.TIMEOUT
           else if ev.errorCode = ErrorCode.ABORT then
             XhrStreamReaderStatus.CANCELLED
           else XhrStreamReaderStatus.XHR_ERROR) := by
        rcases selectStep_shape ev (classifyStep ev r).1 with
          ⟨_, hsel⟩ | ⟨_, k, hk, hsel⟩ | ⟨hpn, hnone, hsel⟩
        · rw [hsel]
          exact hcstat
        · rw [hsel]
          show (classifyStep ev r).1.status_ = _
          exact hcstat
        · exact absurd ⟨by rw [← hcpars]; exact hpn, hnone⟩ hbad
      rcases hrest with ⟨hsc, hres⟩ | ⟨hsc, _⟩
      · rw [hres]
        refine ⟨?_, ?_, ?_, ?_⟩
        · rw [parseCalls_append, parseCalls_append, hpe1,
            (selectStep_counts _ _).2.2.2, (clear_counts _).2.2.2.2.2]
          simp
        · rw [clear_fst]
        · rw [clear_fst]
        · rw [clear_fst]
          show (selectStep ev (classifyStep ev r).1).1.status_ = _
          rw [hsstat, if_neg hbad]
      · exfalso
        rw [hsstat] at hsc
        exact hsc hs0big

theorem deliver_status_mono (ev : XhrEvent) (r : XhrStreamReader)
    (hpre : r.status_ = XhrStreamReaderStatus.INIT ∨
            r.status_ = XhrStreamReaderStatus.ACTIVE) :
    r.status_.toNat ≤ (deliverEvent ev r).1.status_.toNat := by
  have h01 : r.status_.toNat ≤ 1 := by
    rcases hpre with h | h <;> rw [h] <;> decide
  rcases deliverEvent_shape ev r with ⟨_, hres⟩ | ⟨_, _, hres⟩ | ⟨_, _, _, hres⟩ |
    ⟨hl, ht, hg, c, s, e1, hcdef, hsdef, he1def, hrest⟩
  · rw [hres]
  · rw [hres]
  · rw [hres]
  · subst hcdef
    subst hsdef
    subst he1def
    rcases hrest with ⟨hsc, hres⟩ | ⟨hsc, ⟨d, hd, hres⟩ | ⟨d, hd, hres⟩⟩
    · rw [hres]
      show r.status_.toNat ≤ (clear_ (selectStep ev (classifyStep ev r).1).1).1.status_.toNat
      rw [clear_fst]
      show r.status_.toNat ≤ (selectStep ev (classifyStep ev r).1).1.status_.toNat
      omega
    · obtain ⟨dstat, _, _, _, _, _, _, _, _, _, _, _, _, _⟩ :=
        decodeStep_inl_facts ev _ d hd
      rw [hres]
      show r.status_.toNat ≤ d.1.status_.toNat
      rw [dstat]
      exact le_trans h01 (by decide)
    · obtain ⟨tgt, hbranch, fstat, _, _, _, _, _, _, _, _⟩ := finishStep_facts ev d.1
      rw [hres]
      show r.status_.toNat ≤ (finishStep ev d.1).1.status_.toNat
      rw [fstat]
      rcases hbranch with ⟨_, htgt, _, _, _, _⟩ | ⟨_, htgt, _, _, _, _⟩
      · by_cases hlen : jsLength ev.responseText = 0
        · rw [htgt, if_pos hlen]
          exact le_trans h01 (by decide)
        · rw [htgt, if_neg hlen]
          exact le_trans h01 (by decide)
      · rw [htgt]
        exact h01

theorem deliver_statusTrace (ev : XhrEvent) (r : XhrStreamReader)
    (hsh : r.statusHandler_ = true)
    (hpre : r.status_ = XhrStreamReaderStatus.INIT ∨
            r.status_ = XhrStreamReaderStatus.ACTIVE) :
    List.Chain StatusStepRel r.status_ (statusCalls (deliverEvent ev r).2) := by
  have h01 : r.status_.toNat ≤ 1 := by
    rcases hpre with h | h <;> rw [h] <;> decide
  have hne : ∀ t : XhrStreamReaderStatus, 1 < t.toNat → r.status_ ≠ t := by
    intro t ht heq
    rw [heq] at h01
    omega
  have hrel : ∀ t : XhrStreamReaderStatus, 1 < t.toNat → StatusStepRel r.status_ t :=
    fun t ht => Or.inl (by omega)
  rcases deliverEvent_shape ev r with ⟨_, hres⟩ | ⟨_, _, hres⟩ | ⟨_, _, _, hres⟩ |
    ⟨hl, ht, hg, c, s, e1, hcdef, hsdef, he1def, hrest⟩
  · rw [hres]
    exact List.Chain.nil
  · rw [hres]
    have : statusCalls [Effect.warn] = [] := by simp [statusCalls]
    rw [this]
    exact List.Chain.nil
  · rw [hres]
    exact List.Chain.nil
  · subst hcdef
    subst hsdef
    subst he1def
    obtain ⟨cx, cp, cpos, cl, csh, cdh⟩ := classifyStep_fields ev r
    have hwe1 : statusCalls
        (if (ev.statusCode = HttpStatusOK ∨
             ev.statusCode = HttpStatusPARTIAL_CONTENT) ∧ ev.responseText = ""
         then (classifyStep ev r).2 ++ [Effect.warn]
         else (classifyStep ev r).2) = statusCalls (classifyStep ev r).2 :=
      warnAdj_statusCalls _ _
    rcases classifyStep_shape ev r with hcs | ⟨s0, hs0, h4cpl, hcs⟩
    · -- no failure classification happened
      have hc1 : (classifyStep ev r).1 = r := by rw [hcs]
      have hcs2 : statusCalls (classifyStep ev r).2 = [] := by
        rw [hcs]
        simp [statusCalls]
      rcases selectStep_shape ev (classifyStep ev r).1 with
        ⟨hpne, hsel⟩ | ⟨hpn, k, hk, hsel⟩ | ⟨hpn, hnone, hsel⟩
      · -- parser already set
        have hs1 : (selectStep ev (classifyStep ev r).1).1 = r := by rw [hsel, hc1]
        have hss2 : statusCalls (selectStep ev (classifyStep ev r).1).2 = [] := by
          rw [hsel]
          simp [statusCalls]
        rcases hrest with ⟨hsc, hres⟩ | ⟨hsc, ⟨d, hd, hres⟩ | ⟨d, hd, hres⟩⟩
        · exfalso
          rw [hs1] at hsc
          have h2 : XhrStreamReaderStatus.SUCCESS.toNat = 2 := rfl
          omega
        · obtain ⟨_, _, _, _, _, _, _, _, _, _, _, dsc, _, _⟩ :=
            decodeStep_inl_facts ev _ d hd
          rw [hs1] at dsc
          rw [if_pos ⟨hne _ (by decide), hsh⟩] at dsc
          rw [hres, statusCalls_append, statusCalls_append, hwe1, hcs2, hss2, dsc]
          exact List.Chain.cons (hrel _ (by decide)) List.Chain.nil
        · obtain ⟨_, _, dstat, _, dsh2, _, _, _, _, dsc, _⟩ :=
            decodeStep_inr_facts ev _ d hd
          have hdstat : d.1.status_ = r.status_ := by rw [dstat, hs1]
          have hdsh : d.1.statusHandler_ = true := by rw [dsh2, hs1, hsh]
          obtain ⟨tgt, hbranch, _, _, _, _, _, _, _, _, fsc⟩ := finishStep_facts ev d.1
          rw [hdstat, hdsh] at fsc
          rw [hres, statusCalls_append, statusCalls_append, statusCalls_append,
            hwe1, hcs2, hss2, dsc, fsc]
          rcases hbranch with ⟨_, htgt, _, _, _, _⟩ | ⟨_, htgt, _, _, _, _⟩
          · by_cases hlen : jsLength ev.responseText = 0
            · rw [htgt, if_pos hlen]
              rw [if_pos ⟨hne _ (by decide), rfl⟩]
              exact List.Chain.cons (hrel _ (by decide)) List.Chain.nil
            · rw [htgt, if_neg hlen]
              rw [if_pos ⟨hne _ (by decide), rfl⟩]
              exact List.Chain.cons (hrel _ (by decide)) List.Chain.nil
          · rw [htgt]
            by_cases hact : r.status_ = XhrStreamReaderStatus.ACTIVE
            · rw [if_neg (by simp [hact])]
              exact List.Chain.nil
            · have hinit : r.status_ = XhrStreamReaderStatus.INIT := by tauto
              rw [if_pos ⟨hact, rfl⟩]
              refine List.Chain.cons (Or.inl ?_) List.Chain.nil
              rw [hinit]
              decide
      · -- fresh selection succeeds
        have hs1 : (selectStep ev (classifyStep ev r).1).1 =
            { (classifyStep ev r).1 with parser_ := some k } := by rw [hsel]
        have hs1stat : (selectStep ev (classifyStep ev r).1).1.status_ = r.status_ := by
          rw [hs1]
          show (classifyStep ev r).1.status_ = r.status_
          rw [hc1]
        have hs1sh : (selectStep ev (classifyStep ev r).1).1.statusHandler_ = true := by
          rw [hs1]
          show (classifyStep ev r).1.statusHandler_ = true
          rw [hc1, hsh]
        have hss2 : statusCalls (selectStep ev (classifyStep ev r).1).2 = [] := by
          rw [hsel]
          simp [statusCalls]
        rcases hrest with ⟨hsc, hres⟩ | ⟨hsc, ⟨d, hd, hres⟩ | ⟨d, hd, hres⟩⟩
        · exfalso
          rw [hs1stat] at hsc
          have h2 : XhrStreamReaderStatus.SUCCESS.toNat = 2 := rfl
          omega
        · obtain ⟨_, _, _, _, _, _, _, _, _, _, _, dsc, _, _⟩ :=
            decodeStep_inl_facts ev _ d hd
          rw [hs1stat, hs1sh] at dsc
          rw [if_pos ⟨hne _ (by decide), rfl⟩] at dsc
          rw [hres, statusCalls_append, statusCalls_append, hwe1, hcs2, hss2, dsc]
          exact List.Chain.cons (hrel _ (by decide)) List.Chain.nil
        · obtain ⟨_, _, dstat, _, dsh2, _, _, _, _, dsc, _⟩ :=
            decodeStep_inr_facts ev _ d hd
          have hdstat : d.1.status_ = r.status_ := by rw [dstat, hs1stat]
          have hdsh : d.1.statusHandler_ = true := by rw [dsh2, hs1sh]
          obtain ⟨tgt, hbranch, _, _, _, _, _, _, _, _, fsc⟩ := finishStep_facts ev d.1
          rw [hdstat, hdsh] at fsc
          rw [hres, statusCalls_append, statusCalls_append, statusCalls_append,
            hwe1, hcs2, hss2, dsc, fsc]
          rcases hbranch with ⟨_, htgt, _, _, _, _⟩ | ⟨_, htgt, _, _, _, _⟩
          · by_cases hlen : jsLength ev.responseText = 0
            · rw [htgt, if_pos hlen]
              rw [if_pos ⟨hne _ (by decide), rfl⟩]
              exact List.Chain.cons (hrel _ (by decide)) List.Chain.nil
            · rw [htgt, if_neg hlen]
              rw [if_pos ⟨hne _ (by decide), rfl⟩]
              exact List.Chain.cons (hrel _ (by decide)) List.Chain.nil
          · rw [htgt]
            by_cases hact : r.status_ = XhrStreamReaderStatus.ACTIVE
            · rw [if_neg (by simp [hact])]
              exact List.Chain.nil
            · have hinit : r.status_ = XhrStreamReaderStatus.INIT := by tauto
              rw [if_pos ⟨hact, rfl⟩]
              refine List.Chain.cons (Or.inl ?_) List.Chain.nil
              rw [hinit]
              decide
      · -- fresh selection fails: trace [BAD_DATA], then teardown
        have hss2 : statusCalls (selectStep ev (classifyStep ev r).1).2 =
            [XhrStreamReaderStatus.BAD_DATA] := by
          rw [hsel, statusCalls_cons_other _ _ (by intro s2 hs2; cases hs2),
            updateStatus_statusCalls, hc1]
          rw [if_pos ⟨hne _ (by decide), hsh⟩]
        have hs1stat : (selectStep ev (classifyStep ev r).1).1.status_ =
            XhrStreamReaderStatus.BAD_DATA := by
          rw [hsel, updateStatus_fst]
        rcases hrest with ⟨hsc, hres⟩ | ⟨hsc, _⟩
        · rw [hres, statusCalls_append, statusCalls_append, hwe1, hcs2, hss2,
            (clear_counts _).2.2.2.1]
          refine List.Chain.cons (hrel _ (by decide)) ?_
          exact List.Chain.nil
        · exfalso
          rw [hs1stat] at hsc
          exact hsc (by decide)
    · -- a failure classification `s0` happened first
      have hs0big : 1 < s0.toNat := by
        rcases hs0 with h | h | h <;> rw [h] <;> decide
      have hs0big2 : 2 < s0.toNat := by
        rcases hs0 with h | h | h <;> rw [h] <;> decide
      have hcs2 : statusCalls (classifyStep ev r).2 = [s0] := by
        rw [hcs, updateStatus_statusCalls]
        rw [if_pos ⟨hne _ hs0big, hsh⟩]
      have hc1stat : (classifyStep ev r).1.status_ = s0 := by
        rw [hcs, updateStatus_fst]
      rcases selectStep_shape ev (classifyStep ev r).1 with
        ⟨hpne, hsel⟩ | ⟨hpn, k, hk, hsel⟩ | ⟨hpn, hnone, hsel⟩
      · have hs1stat : (selectStep ev (classifyStep ev r).1).1.status_ = s0 := by
          rw [hsel, hc1stat]
        have hss2 : statusCalls (selectStep ev (classifyStep ev r).1).2 = [] := by
          rw [hsel]
          simp [statusCalls]
        rcases hrest with ⟨hsc, hres⟩ | ⟨hsc, _⟩
        · rw [hres, statusCalls_append, statusCalls_append, hwe1, hcs2, hss2,
            (clear_counts _).2.2.2.1]
          refine List.Chain.cons (hrel _ hs0big) ?_
          exact List.Chain.nil
        · exfalso
          rw [hs1stat] at hsc
          exact hsc hs0big2
      · have hs1stat : (selectStep ev (classifyStep ev r).1).1.status_ = s0 := by
          rw [hsel]
          show (classifyStep ev r).1.status_ = s0
          exact hc1stat
        have hss2 : statusCalls (selectStep ev (classifyStep ev r).1).2 = [] := by
          rw [hsel]
          simp [statusCalls]
        rcases hrest with ⟨hsc, hres⟩ | ⟨hsc, _⟩
        · rw [hres, statusCalls_append, statusCalls_append, hwe1, hcs2, hss2,
            (clear_counts _).2.2.2.1]
          refine List.Chain.cons (hrel _ hs0big) ?_
          exact List.Chain.nil
        · exfalso
          rw [hs1stat] at hsc
          exact hsc hs0big2
      · -- failed selection right after the failure classification:
        -- the trace is [s0, BAD_DATA], the one decreasing overwrite
        have hcsh : (classifyStep ev r).1.statusHandler_ = true := by rw [csh, hsh]
        have hs0ne : s0 ≠ XhrStreamReaderStatus.BAD_DATA := by
          rcases hs0 with h | h | h <;> rw [h] <;> decide
        have hss2 : statusCalls (selectStep ev (classifyStep ev r).1).2 =
            [XhrStreamReaderStatus.BAD_DATA] := by
          rw [hsel, statusCalls_cons_other _ _ (by intro s2 hs2; cases hs2),
            updateStatus_statusCalls, hc1stat, hcsh]
          rw [if_pos ⟨hs0ne, rfl⟩]
        have hs1stat : (selectStep ev (classifyStep ev r).1).1.status_ =
            XhrStreamReaderStatus.BAD_DATA := by
          rw [hsel, updateStatus_fst]
        rcases hrest with ⟨hsc, hres⟩ | ⟨hsc, _⟩
        · rw [hres, statusCalls_append, statusCalls_append, hwe1, hcs2, hss2,
            (clear_counts _).2.2.2.1]
          refine List.Chain.cons (hrel _ hs0big) ?_
          refine List.Chain.cons ?_ List.Chain.nil
          rcases hs0 with h | h | h <;> rw [h]
          · exact Or.inr ⟨rfl, Or.inl rfl⟩
          · exact Or.inr ⟨rfl, Or.inr rfl⟩
          · exact Or.inl (by decide)
        · exfalso
          rw [hs1stat] at hsc
          exact hsc (by decide)

theorem deliver_data (ev : XhrEvent) (r : XhrStreamReader)
    (hdh : r.dataHandler_ = true) (res : Option (List Nat))
    (hres : ev.parseOutcome = Except.ok res)
    (hp : parseCalls (deliverEvent ev r).2 ≠ []) :
    dataCalls (deliverEvent ev r).2 =
      (match res with | some ms => [ms] | none => []) := by
  rcases deliverEvent_shape ev r with ⟨_, hres0⟩ | ⟨_, _, hres0⟩ | ⟨_, _, _, hres0⟩ |
    ⟨hl, ht, hg, c, s, e1, hcdef, hsdef, he1def, hrest⟩
  · rw [hres0] at hp
    exact absurd rfl hp
  · rw [hres0] at hp
    exact absurd (by simp [parseCalls]) hp
  · rw [hres0] at hp
    exact absurd rfl hp
  · subst hcdef
    subst hsdef
    subst he1def
    obtain ⟨cx, cp, cpos, cl, csh, cdh⟩ := classifyStep_fields ev r
    obtain ⟨sx, spos, sl, ssh, sdh⟩ := selectStep_fields ev (classifyStep ev r).1
    have hsdha : (selectStep ev (classifyStep ev r).1).1.dataHandler_ = true := by
      rw [sdh, cdh, hdh]
    have hpe1 : parseCalls
        (if (ev.statusCode = HttpStatusOK ∨
             ev.statusCode = HttpStatusPARTIAL_CONTENT) ∧ ev.responseText = ""
         then (classifyStep ev r).2 ++ [Effect.warn]
         else (classifyStep ev r).2) = [] := by
      rw [warnAdj_parseCalls]
      exact (classifyStep_counts ev r).2.2.2.2
    have hde1 : dataCalls
        (if (ev.statusCode = HttpStatusOK ∨
             ev.statusCode = HttpStatusPARTIAL_CONTENT) ∧ ev.responseText = ""
         then (classifyStep ev r).2 ++ [Effect.warn]
         else (classifyStep ev r).2) = [] := by
      rw [warnAdj_dataCalls]
      exact (classifyStep_counts ev r).2.2.2.1
    have hps : parseCalls (selectStep ev (classifyStep ev r).1).2 = [] :=
      (selectStep_counts ev (classifyStep ev r).1).2.2.2
    have hds : dataCalls (selectStep ev (classifyStep ev r).1).2 = [] :=
      (selectStep_counts ev (classifyStep ev r).1).2.2.1
    rcases hrest with ⟨hsc, hres1⟩ | ⟨hsc, ⟨d, hd, hres1⟩ | ⟨d, hd, hres1⟩⟩
    · rw [hres1] at hp
      rw [parseCalls_append, parseCalls_append, hpe1, hps,
        (clear_counts _).2.2.2.2.2] at hp
      exact absurd (by simp) hp
    · rcases decodeStep_shape ev (selectStep ev (classifyStep ev r).1).1 with
        ⟨_, heq⟩ | ⟨hlt2, hcase⟩
      · rw [heq] at hd
        cases hd
      · rcases hcase with ⟨_, heq⟩ | ⟨ms, _, _, heq⟩ | ⟨ms, _, _, _, heq⟩ |
          ⟨ms, u, c2, hout, _, _, hu, hc2, heq⟩ | ⟨f, u, c2, hout, hu, hc2, heq⟩
        · rw [heq] at hd
          cases hd
        · rw [heq] at hd
          cases hd
        · rw [heq] at hd
          cases hd
        · rw [hres] at hout
          injection hout with hout
          subst hout
          rw [heq] at hd
          injection hd with hd
          subst hd
          subst hc2
          subst hu
          rw [hres1, dataCalls_append, dataCalls_append, hde1, hds]
          rw [dataCalls_cons_other _ _ (by intro m hm; cases hm),
            dataCalls_cons_dataCall,
            dataCalls_cons_other _ _ (by intro m hm; cases hm),
            dataCalls_append, (updateStatus_counts _ _).2.2.2.1,
            (clear_counts _).2.2.2.2.1]
          simp
        · rw [hres] at hout
          cases hout
    · rcases decodeStep_shape ev (selectStep ev (classifyStep ev r).1).1 with
        ⟨hnlt, heq⟩ | ⟨hlt2, hcase⟩
      · obtain ⟨tgt, _, _, _, _, _, _, _, fparse, _, _⟩ := finishStep_facts ev d.1
        rw [heq] at hd
        injection hd with hd
        subst hd
        rw [hres1] at hp
        rw [parseCalls_append, parseCalls_append, parseCalls_append,
          hpe1, hps, fparse] at hp
        exact absurd (by simp [parseCalls]) hp
      · rcases hcase with ⟨hout, heq⟩ | ⟨ms, hout, hdh0, heq⟩ |
          ⟨ms, hout, _, hth0, heq⟩ | ⟨ms, u, c2, hout, _, _, hu, hc2, heq⟩ |
          ⟨f, u, c2, hout, hu, hc2, heq⟩
        · obtain ⟨tgt, _, _, _, _, _, _, fdata, _, _, _⟩ := finishStep_facts ev d.1
          rw [hres] at hout
          injection hout with hout
          subst hout
          rw [heq] at hd
          injection hd with hd
          subst hd
          rw [hres1, dataCalls_append, dataCalls_append, dataCalls_append,
            hde1, hds, fdata]
          simp [dataCalls]
        · rw [hsdha] at hdh0
          cases hdh0
        · obtain ⟨tgt, _, _, _, _, _, _, fdata, _, _, _⟩ := finishStep_facts ev d.1
          rw [hres] at hout
          injection hout with hout
          subst hout
          rw [heq] at hd
          injection hd with hd
          subst hd
          rw [hres1, dataCalls_append, dataCalls_append, dataCalls_append,
            hde1, hds, fdata]
          simp [dataCalls, dataCalls_append]
        · rw [heq] at hd
          cases hd
        · rw [heq] at hd
          cases hd

theorem deliver_dataThrow (ev : XhrEvent) (r : XhrStreamReader)
    (hth : ev.dataHandlerThrows = true)
    (hne : dataCalls (deliverEvent ev r).2 ≠ []) :
    (deliverEvent ev r).1.status_ = XhrStreamReaderStatus.BAD_DATA ∧
    (deliverEvent ev r).1.listening = false ∧
    (deliverEvent ev r).1.xhr_ = none := by
  rcases deliverEvent_shape ev r with ⟨_, hres0⟩ | ⟨_, _, hres0⟩ | ⟨_, _, _, hres0⟩ |
    ⟨hl, ht, hg, c, s, e1, hcdef, hsdef, he1def, hrest⟩
  · rw [hres0] at hne
    exact absurd rfl hne
  · rw [hres0] at hne
    exact absurd (by simp [dataCalls]) hne
  · rw [hres0] at hne
    exact absurd rfl hne
  · subst hcdef
    subst hsdef
    subst he1def
    have hde1 : dataCalls
        (if (ev.statusCode = HttpStatusOK ∨
             ev.statusCode = HttpStatusPARTIAL_CONTENT) ∧ ev.responseText = ""
         then (classifyStep ev r).2 ++ [Effect.warn]
         else (classifyStep ev r).2) = [] := by
      rw [warnAdj_dataCalls]
      exact (classifyStep_counts ev r).2.2.2.1
    have hds : dataCalls (selectStep ev (classifyStep ev r).1).2 = [] :=
      (selectStep_counts ev (classifyStep ev r).1).2.2.1
    rcases hrest with ⟨hsc, hres1⟩ | ⟨hsc, ⟨d, hd, hres1⟩ | ⟨d, hd, hres1⟩⟩
    · rw [hres1] at hne
      rw [dataCalls_append, dataCalls_append, hde1, hds,
        (clear_counts _).2.2.2.2.1] at hne
      exact absurd (by simp) hne
    · obtain ⟨dstat, dl, dx, _, _, _, _, _, _, _, _, _, _, _⟩ :=
        decodeStep_inl_facts ev _ d hd
      rw [hres1]
      exact ⟨dstat, dl, dx⟩
    · rcases decodeStep_shape ev (selectStep ev (classifyStep ev r).1).1 with
        ⟨_, heq⟩ | ⟨hlt2, hcase⟩
      · obtain ⟨tgt, _, _, _, _, _, _, fdata, _, _, _⟩ := finishStep_facts ev d.1
        rw [heq] at hd
        injection hd with hd
        subst hd
        rw [hres1] at hne
        rw [dataCalls_append, dataCalls_append, dataCalls_append,
          hde1, hds, fdata] at hne
        exact absurd (by simp [dataCalls]) hne
      · rcases hcase with ⟨_, heq⟩ | ⟨ms, _, _, heq⟩ | ⟨ms, _, _, hth0, heq⟩ |
          ⟨ms, u, c2, _, _, _, hu, hc2, heq⟩ | ⟨f, u, c2, _, hu, hc2, heq⟩
        · obtain ⟨tgt, _, _, _, _, _, _, fdata, _, _, _⟩ := finishStep_facts ev d.1
          rw [heq] at hd
          injection hd with hd
          subst hd
          rw [hres1] at hne
          rw [dataCalls_append, dataCalls_append, dataCalls_append,
            hde1, hds, fdata] at hne
          exact absurd (by simp [dataCalls]) hne
        · obtain ⟨tgt, _, _, _, _, _, _, fdata, _, _, _⟩ := finishStep_facts ev d.1
          rw [heq] at hd
          injection hd with hd
          subst hd
          rw [hres1] at hne
          rw [dataCalls_append, dataCalls_append, dataCalls_append,
            hde1, hds, fdata] at hne
          exact absurd (by simp [dataCalls]) hne
        · rw [hth] at hth0
          cases hth0
        · rw [heq] at hd
          cases hd
        · rw [heq] at hd
          cases hd

/-! ### Whole-run lemmas -/

theorem runEvents_nil (r : XhrStreamReader) : runEvents r [] = (r, []) := rfl

theorem runEvents_cons (r : XhrStreamReader) (ev : XhrEvent) (rest : List XhrEvent) :
    runEvents r (ev :: rest) =
      ((runEvents (deliverEvent ev r).1 rest).1,
        (deliverEvent ev r).2 ++ (runEvents (deliverEvent ev r).1 rest).2) := rfl

theorem deliver_notListening (ev : XhrEvent) (r : XhrStreamReader)
    (h : r.listening = false) : deliverEvent ev r = (r, []) := by
  unfold deliverEvent
  rw [h]
  simp

theorem runEvents_notListening (r : XhrStreamReader) (evs : List XhrEvent)
    (h : r.listening = false) : runEvents r evs = (r, []) := by
  induction evs with
  | nil => rfl
  | cons ev rest ih =>
      rw [runEvents_cons, deliver_notListening ev r h]
      rw [ih]
      simp

theorem runEvents_inv (r : XhrStreamReader) (evs : List XhrEvent)
    (h : r.listening = true →
      r.status_ = XhrStreamReaderStatus.INIT ∨
      r.status_ = XhrStreamReaderStatus.ACTIVE) :
    (runEvents r evs).1.listening = true →
      (runEvents r evs).1.status_ = XhrStreamReaderStatus.INIT ∨
      (runEvents r evs).1.status_ = XhrStreamReaderStatus.ACTIVE := by
  induction evs generalizing r with
  | nil => exact h
  | cons ev rest ih =>
      rw [runEvents_cons]
      exact ih (deliverEvent ev r).1 (deliver_inv ev r h)

theorem runEvents_inv2 (r : XhrStreamReader) (evs : List XhrEvent)
    (h : r.listening = false → r.xhr_ = none) :
    (runEvents r evs).1.listening = false → (runEvents r evs).1.xhr_ = none := by
  induction evs generalizing r with
  | nil => exact h
  | cons ev rest ih =>
      rw [runEvents_cons]
      exact ih (deliverEvent ev r).1 (deliver_inv2 ev r h)

theorem runEvents_abort (r : XhrStreamReader) (evs : List XhrEvent) :
    ((runEvents r evs).1.xhr_ = r.xhr_ ∧ abortCount (runEvents r evs).2 = 0 ∧
      disposeCount (runEvents r evs).2 = 0) ∨
    (r.xhr_.isSome = true ∧ (runEvents r evs).1.xhr_ = none ∧
      abortCount (runEvents r evs).2 = 1 ∧
      disposeCount (runEvents r evs).2 = 1) := by
  induction evs generalizing r with
  | nil => exact Or.inl ⟨rfl, rfl, rfl⟩
  | cons ev rest ih =>
      rw [runEvents_cons]
      rcases deliver_abort ev r with ⟨hx, ha, hd⟩ | ⟨hs, hx, ha, hd⟩
      · rcases ih (deliverEvent ev r).1 with ⟨hx2, ha2, hd2⟩ | ⟨hs2, hx2, ha2, hd2⟩
        · refine Or.inl ⟨by rw [hx2, hx], ?_, ?_⟩
          · rw [abortCount_append, ha, ha2]
          · rw [disposeCount_append, hd, hd2]
        · refine Or.inr ⟨by rw [← hx]; exact hs2, hx2, ?_, ?_⟩
          · rw [abortCount_append, ha, ha2]
          · rw [disposeCount_append, hd, hd2]
      · rcases ih (deliverEvent ev r).1 with ⟨hx2, ha2, hd2⟩ | ⟨hs2, hx2, ha2, hd2⟩
        · refine Or.inr ⟨hs, by rw [hx2, hx], ?_, ?_⟩
          · rw [abortCount_append, ha, ha2]
          · rw [disposeCount_append, hd, hd2]
        · rw [hx] at hs2
          cases hs2
 
theorem runEvents_selectCount (r : XhrStreamReader) (evs : List XhrEvent) :
    selectCount (runEvents r evs).2 ≤ 1 ∧
    (¬ (r.parser_ = none ∧ r.listening = true) →
      selectCount (runEvents r evs).2 = 0) := by
  induction evs generalizing r with
  | nil => exact ⟨Nat.zero_le 1, fun _ => rfl⟩
  | cons ev rest ih =>
      rw [runEvents_cons]
      obtain ⟨ihle, ihzero⟩ := ih (deliverEvent ev r).1
      rcases deliver_selectCount ev r with ⟨hc0, hpar, hlis⟩ | ⟨hpn, hlt, hc1, hpost⟩
      · have hpropagate : ¬ (r.parser_ = none ∧ r.listening = true) →
            ¬ ((deliverEvent ev r).1.parser_ = none ∧
               (deliverEvent ev r).1.listening = true) := by
          intro hnf hf
          exact hnf ⟨by rw [← hpar]; exact hf.1, hlis hf.2⟩
        constructor
        · rw [selectCount_append, hc0]
          simpa using ihle
        · intro hnf
          rw [selectCount_append, hc0, ihzero (hpropagate hnf)]
      · have hrest0 : selectCount (runEvents (deliverEvent ev r).1 rest).2 = 0 := by
          apply ihzero
          intro hf
          rcases hpost with hp2 | hl2
          · exact hp2 hf.1
          · rw [hf.2] at hl2
            cases hl2
        constructor
        · rw [selectCount_append, hc1, hrest0]
        · intro hnf
          exact absurd ⟨hpn, hlt⟩ hnf

theorem getLastD_mono_default (l : List Nat) (v d1 d2 : Nat)
    (h : v ≤ l.getLastD d1) (hd : d1 ≤ d2) : v ≤ l.getLastD d2 := by
  cases l with
  | nil => exact le_trans h hd
  | cons x xs =>
      rw [List.getLastD_cons] at h ⊢
      exact h

theorem chain_le_weaken (a b : Nat) (l : List Nat) (hab : b ≤ a)
    (h : List.Chain (· ≤ ·) a l) : List.Chain (· ≤ ·) b l := by
  cases l with
  | nil => exact List.Chain.nil
  | cons x xs =>
      cases h with
      | cons hx hxs => exact List.Chain.cons (le_trans hab hx) hxs

theorem runEvents_cursor (r : XhrStreamReader) (evs : List XhrEvent)
    (h : List.Chain (· ≤ ·) r.pos_ (evs.map fun e => jsLength e.responseText)) :
    r.pos_ ≤ (runEvents r evs).1.pos_ ∧
    (runEvents r evs).1.pos_ ≤
      (evs.map fun e => jsLength e.responseText).getLastD r.pos_ := by
  induction evs generalizing r with
  | nil => exact ⟨le_refl _, le_refl _⟩
  | cons ev rest ih =>
      rw [runEvents_cons]
      rw [List.map_cons] at h ⊢
      cases h with
      | cons hle hchain =>
          have hstep : r.pos_ ≤ (deliverEvent ev r).1.pos_ ∧
              (deliverEvent ev r).1.pos_ ≤ jsLength ev.responseText := by
            rcases deliver_cursor ev r with ⟨hp, _⟩ | ⟨hlt, hp, _⟩
            · rw [hp]
              exact ⟨le_refl _, hle⟩
            · rw [hp]
              exact ⟨le_of_lt hlt, le_refl _⟩
          have hchain2 : List.Chain (· ≤ ·) (deliverEvent ev r).1.pos_
              (rest.map fun e => jsLength e.responseText) :=
            chain_le_weaken _ _ _ hstep.2 hchain
          obtain ⟨ih1, ih2⟩ := ih (deliverEvent ev r).1 hchain2
          constructor
          · exact le_trans hstep.1 ih1
          · rw [List.getLastD_cons]
            exact getLastD_mono_default _ _ _ _ ih2 hstep.2

theorem deliver_handlers (ev : XhrEvent) (r : XhrStreamReader) :
    (deliverEvent ev r).1.statusHandler_ = r.statusHandler_ ∧
    (deliverEvent ev r).1.dataHandler_ = r.dataHandler_ := by
  rcases deliverEvent_shape ev r with ⟨_, hres⟩ | ⟨_, _, hres⟩ | ⟨_, _, _, hres⟩ |
    ⟨hl, ht, hg, c, s, e1, hcdef, hsdef, he1def, hrest⟩
  · rw [hres]
    exact ⟨rfl, rfl⟩
  · rw [hres]
    exact ⟨rfl, rfl⟩
  · rw [hres]
    exact ⟨rfl, rfl⟩
  · subst hcdef
    subst hsdef
    subst he1def
    obtain ⟨_, _, _, _, csh, cdh⟩ := classifyStep_fields ev r
    obtain ⟨_, _, _, ssh, sdh⟩ := selectStep_fields ev (classifyStep ev r).1
    rcases hrest with ⟨hsc, hres⟩ | ⟨hsc, ⟨d, hd, hres⟩ | ⟨d, hd, hres⟩⟩
    · rw [hres, clear_fst]
      constructor
      · show (selectStep ev (classifyStep ev r).1).1.statusHandler_ = _
        rw [ssh, csh]
      · show (selectStep ev (classifyStep ev r).1).1.dataHandler_ = _
        rw [sdh, cdh]
    · obtain ⟨_, _, _, _, dsh, ddh, _, _, _, _, _, _, _, _⟩ :=
        decodeStep_inl_facts ev _ d hd
      rw [hres]
      exact ⟨by rw [dsh, ssh, csh], by rw [ddh, sdh, cdh]⟩
    · obtain ⟨_, _, _, _, dsh, ddh, _, _, _, _, _⟩ := decodeStep_inr_facts ev _ d hd
      obtain ⟨tgt, _, _, _, _, fsh, fdh, _, _, _, _⟩ := finishStep_facts ev d.1
      rw [hres]
      exact ⟨by rw [fsh, dsh, ssh, csh], by rw [fdh, ddh, sdh, cdh]⟩

theorem runEvents_handlers (r : XhrStreamReader) (evs : List XhrEvent) :
    (runEvents r evs).1.statusHandler_ = r.statusHandler_ ∧
    (runEvents r evs).1.dataHandler_ = r.dataHandler_ := by
  induction evs generalizing r with
  | nil => exact ⟨rfl, rfl⟩
  | cons ev rest ih =>
      rw [runEvents_cons]
      obtain ⟨ih1, ih2⟩ := ih (deliverEvent ev r).1
      obtain ⟨h1, h2⟩ := deliver_handlers ev r
      exact ⟨by rw [ih1, h1], by rw [ih2, h2]⟩

theorem xprotobuf_not_json (s : String)
    (h : jsStartsWith s "application/x-protobuf" = true) :
    jsStartsWith s "application/json" = false := by
  by_contra hj
  rw [Bool.not_eq_false] at hj
  unfold jsStartsWith at h hj
  rw [List.isPrefixOf_iff_prefix] at h hj
  have hle : ("application/json".data).length ≤
      ("application/x-protobuf".data).length := by decide
  have hpp := List.prefix_of_prefix_length_le hj h hle
  obtain ⟨t, ht⟩ := hpp
  have h16 : ("application/x-protobuf".data).take
      ("application/json".data).length = "application/json".data := by
    rw [← ht]
    exact List.take_left _ _
  revert h16
  decide

/-! ### Claim theorems -/

/-- C1, counterexample: the claim that once the status holds a value
strictly greater than `SUCCESS` no internal step ever changes it is false:
in a single completion notification that times out before a content type is
available, the status is first set to `TIMEOUT` (the status callback fires
with it) and is then overwritten with `BAD_DATA` by the failed parser
selection, so `getStatus` afterwards returns `BAD_DATA`, not the `TIMEOUT`
the reader had already held. -/
theorem C1_counterexample :
    XhrStreamReaderStatus.SUCCESS.toNat < XhrStreamReaderStatus.TIMEOUT.toNat ∧
    statusCalls (deliverEvent evTimeoutNoCT (mkXhrStreamReader 7 true true)).2 =
      [XhrStreamReaderStatus.TIMEOUT, XhrStreamReaderStatus.BAD_DATA] ∧
    getStatus (deliverEvent evTimeoutNoCT (mkXhrStreamReader 7 true true)).1 =
      XhrStreamReaderStatus.BAD_DATA ∧
    XhrStreamReaderStatus.BAD_DATA ≠ XhrStreamReaderStatus.TIMEOUT := by
  decide

/-- C1, amended: at notification granularity the claim holds — once a
notification leaves the reader with a status strictly greater than
`SUCCESS`, the reader has been torn down, so every later sequence of
notifications leaves the state (hence `getStatus()`) unchanged and produces
no effects at all — in particular the data handler is never invoked again.
(Within the terminal notification itself, a failed decoder selection may
still overwrite a just-classified `TIMEOUT`/`CANCELLED`/`XHR_ERROR` with
`BAD_DATA`; see the counterexample.) -/
theorem C1_amended (id : Nat) (sh dh : Bool) (evs evs' : List XhrEvent)
    (h : XhrStreamReaderStatus.SUCCESS.toNat <
      (runEvents (mkXhrStreamReader id sh dh) evs).1.status_.toNat) :
    runEvents (runEvents (mkXhrStreamReader id sh dh) evs).1 evs' =
      ((runEvents (mkXhrStreamReader id sh dh) evs).1, []) := by
  have hInv := runEvents_inv (mkXhrStreamReader id sh dh) evs (fun _ => Or.inl rfl)
  have hlis : (runEvents (mkXhrStreamReader id sh dh) evs).1.listening = false := by
    by_contra hx
    rw [Bool.not_eq_false] at hx
    rcases hInv hx with h0 | h0 <;> rw [h0] at h <;> exact absurd h (by decide)
  exact runEvents_notListening _ _ hlis

/-- C1, witness: after a cancelled completion (terminal status `CANCELLED`),
delivering one more notification is a complete no-op. -/
theorem C1_amended_witness :
    runEvents (runEvents (mkXhrStreamReader 7 true true) [evCancelJson]).1
        [baseEvent] =
      ((runEvents (mkXhrStreamReader 7 true true) [evCancelJson]).1, []) :=
  C1_amended 7 true true [evCancelJson] [baseEvent] (by decide)

/-- C2, counterexample: the status is not always non-decreasing: in a
completion notification classified `CANCELLED` whose content type is
unrecognized, the failed parser selection replaces `CANCELLED` (8) with the
strictly smaller `BAD_DATA` (5). -/
theorem C2_counterexample :
    statusCalls (deliverEvent evAbortNoCT (mkXhrStreamReader 7 true true)).2 =
      [XhrStreamReaderStatus.CANCELLED, XhrStreamReaderStatus.BAD_DATA] ∧
    XhrStreamReaderStatus.BAD_DATA.toNat <
      XhrStreamReaderStatus.CANCELLED.toNat ∧
    getStatus (deliverEvent evAbortNoCT (mkXhrStreamReader 7 true true)).1 =
      XhrStreamReaderStatus.BAD_DATA := by
  decide

/-- C2, amended: for every reachable reader state, (i) the status value at
notification boundaries is non-decreasing; (ii) within one notification,
every consecutive pair of status transitions is a strict numeric increase
except for the single overwrite the code performs — a failed decoder
selection replacing a just-classified `TIMEOUT` or `CANCELLED` with
`BAD_DATA` (`StatusStepRel`); and (iii) once a value strictly greater than
`SUCCESS` is reached at a notification boundary, the reader has been torn
down (listener removed, transport released) and no further step — in
particular no decoding — ever occurs. -/
theorem C2_amended :
    (∀ (id : Nat) (dh : Bool) (evs : List XhrEvent) (ev : XhrEvent),
      (runEvents (mkXhrStreamReader id true dh) evs).1.status_.toNat ≤
        (deliverEvent ev
          (runEvents (mkXhrStreamReader id true dh) evs).1).1.status_.toNat) ∧
    (∀ (id : Nat) (dh : Bool) (evs : List XhrEvent) (ev : XhrEvent),
      List.Chain StatusStepRel
        (runEvents (mkXhrStreamReader id true dh) evs).1.status_
        (statusCalls (deliverEvent ev
          (runEvents (mkXhrStreamReader id true dh) evs).1).2)) ∧
    (∀ (id : Nat) (dh : Bool) (evs : List XhrEvent),
      XhrStreamReaderStatus.SUCCESS.toNat <
          (runEvents (mkXhrStreamReader id true dh) evs).1.status_.toNat →
        (runEvents (mkXhrStreamReader id true dh) evs).1.listening = false ∧
        (runEvents (mkXhrStreamReader id true dh) evs).1.xhr_ = none ∧
        ∀ evs', runEvents (runEvents (mkXhrStreamReader id true dh) evs).1 evs' =
          ((runEvents (mkXhrStreamReader id true dh) evs).1, [])) := by
  refine ⟨?_, ?_, ?_⟩
  · intro id dh evs ev
    by_cases hlis : (runEvents (mkXhrStreamReader id true dh) evs).1.listening = true
    · exact deliver_status_mono ev _
        (runEvents_inv (mkXhrStreamReader id true dh) evs (fun _ => Or.inl rfl) hlis)
    · rw [deliver_notListening ev _ (by simpa using hlis)]
  · intro id dh evs ev
    by_cases hlis : (runEvents (mkXhrStreamReader id true dh) evs).1.listening = true
    · refine deliver_statusTrace ev _ ?_
        (runEvents_inv (mkXhrStreamReader id true dh) evs (fun _ => Or.inl rfl) hlis)
      exact (runEvents_handlers (mkXhrStreamReader id true dh) evs).1
    · rw [deliver_notListening ev _ (by simpa using hlis)]
      exact List.Chain.nil
  · intro id dh evs h
    have hInv := runEvents_inv (mkXhrStreamReader id true dh) evs
      (fun _ => Or.inl rfl)
    have hlis : (runEvents (mkXhrStreamReader id true dh) evs).1.listening = false := by
      by_contra hx
      rw [Bool.not_eq_false] at hx
      rcases hInv hx with h0 | h0 <;> rw [h0] at h <;> exact absurd h (by decide)
    refine ⟨hlis, ?_, fun evs' => runEvents_notListening _ evs' hlis⟩
    exact runEvents_inv2 (mkXhrStreamReader id true dh) evs
      (fun hf => by cases hf) hlis

/-- C2, witness: a run ending in `CANCELLED` (8 > `SUCCESS`) has its
listener removed. -/
theorem C2_amended_witness :
    (runEvents (mkXhrStreamReader 7 true true) [evCancelJson]).1.listening = false :=
  (C2_amended.2.2 7 true [evCancelJson] (by decide)).1

/-- C3: during a notification in which the parser is handed the new slice
and parses it without fault, the registered data handler is invoked (with
exactly one batch, the parser's order-preserving message array) iff the
decoded sequence is non-empty. The stream parsers live outside the provided
sources; per the spec's decoder contract (`ConformingParse`, modelled from
the spec) JS `null` stands for the empty sequence and a returned array is a
non-empty batch, so the handler is never invoked with an empty sequence. -/
theorem C3_delivery_iff_nonempty (ev : XhrEvent) (r : XhrStreamReader)
    (res : Option (List Nat))
    (hdh : r.dataHandler_ = true)
    (hconf : ConformingParse ev.parseOutcome)
    (hres : ev.parseOutcome = Except.ok res)
    (hp : parseCalls (deliverEvent ev r).2 ≠ []) :
    dataCalls (deliverEvent ev r).2 =
      (match res with | some ms => [ms] | none => []) ∧
    (∀ ms, res = some ms → ms ≠ []) := by
  refine ⟨deliver_data ev r hdh res hres hp, ?_⟩
  intro ms hms
  subst hms
  rw [hres] at hconf
  exact hconf

/-- C3, witness: with a one-message parse result, the handler receives the
batch `[42]` exactly once. -/
theorem C3_witness :
    dataCalls (deliverEvent evMsg (mkXhrStreamReader 7 true true)).2 = [[42]] :=
  (C3_delivery_iff_nonempty evMsg (mkXhrStreamReader 7 true true) (some [42])
    rfl (by show ([42] : List Nat) ≠ []; decide) rfl (by decide)).1

theorem jsonpb_implies_json (s : String)
    (h : jsStartsWith s "application/json+protobuf" = true) :
    jsStartsWith s "application/json" = true := by
  unfold jsStartsWith at h ⊢
  rw [List.isPrefixOf_iff_prefix] at h ⊢
  exact List.IsPrefix.trans (by decide) h

/-- C4: decoder selection is the pure function
`getParserByResponseHeader_` of the two headers, with exactly the claimed
case analysis (lower-cased prefixes; `base64` matched case-insensitively;
JS falsiness rejecting both an absent and an empty header); across any run
the header inspection happens at most once per reader; and whenever the
inspection fails during a processed notification of a fresh reader the
status becomes `BAD_DATA` and the reader is torn down. -/
theorem C4_parser_selection :
    (∀ te, getParserByResponseHeader_ none te = none) ∧
    (∀ te, getParserByResponseHeader_ (some "") te = none) ∧
    (∀ ct te, ct ≠ "" →
      jsStartsWith (jsToLower ct) "application/json+protobuf" = true →
      getParserByResponseHeader_ (some ct) te = some ParserKind.pbJson) ∧
    (∀ ct te, ct ≠ "" →
      jsStartsWith (jsToLower ct) "application/json" = true →
      jsStartsWith (jsToLower ct) "application/json+protobuf" = false →
      getParserByResponseHeader_ (some ct) te = some ParserKind.json) ∧
    (∀ ct, ct ≠ "" →
      jsStartsWith (jsToLower ct) "application/x-protobuf" = true →
      (getParserByResponseHeader_ (some ct) none = some ParserKind.pb) ∧
      (getParserByResponseHeader_ (some ct) (some "") = some ParserKind.pb) ∧
      (∀ enc, enc ≠ "" → jsToLower enc = "base64" →
        getParserByResponseHeader_ (some ct) (some enc) =
          some ParserKind.base64Pb) ∧
      (∀ enc, enc ≠ "" → jsToLower enc ≠ "base64" →
        getParserByResponseHeader_ (some ct) (some enc) = none)) ∧
    (∀ ct te, ct ≠ "" →
      jsStartsWith (jsToLower ct) "application/json" = false →
      jsStartsWith (jsToLower ct) "application/x-protobuf" = false →
      getParserByResponseHeader_ (some ct) te = none) ∧
    (∀ (id : Nat) (sh dh : Bool) (evs : List XhrEvent),
      selectCount (runEvents (mkXhrStreamReader id sh dh) evs).2 ≤ 1) ∧
    (∀ (ev : XhrEvent) (r : XhrStreamReader),
      r.listening = true → some ev.target = r.xhr_ →
      ¬ (ev.readyState < ReadyStateINTERACTIVE ∨
         (ev.readyState = ReadyStateINTERACTIVE ∧ ev.responseText = "")) →
      r.parser_ = none →
      getParserByResponseHeader_ ev.contentType ev.transferEncoding = none →
      (deliverEvent ev r).1.status_ = XhrStreamReaderStatus.BAD_DATA ∧
      (deliverEvent ev r).1.listening = false ∧
      (deliverEvent ev r).1.xhr_ = none) := by
  refine ⟨fun te => rfl, fun te => rfl, ?_, ?_, ?_, ?_, ?_, ?_⟩
  · intro ct te hne hpb
    simp only [getParserByResponseHeader_]
    rw [if_neg hne]
    rw [if_pos (jsonpb_implies_json _ hpb), if_pos hpb]
  · intro ct te hne hjson hpb
    simp only [getParserByResponseHeader_]
    rw [if_neg hne]
    rw [if_pos hjson, if_neg (by rw [hpb]; exact Bool.false_ne_true)]
  · intro ct hne hx
    have hj : jsStartsWith (jsToLower ct) "application/json" = false :=
      xprotobuf_not_json _ hx
    refine ⟨?_, ?_, ?_, ?_⟩
    · simp only [getParserByResponseHeader_]
      rw [if_neg hne, if_neg (by rw [hj]; exact Bool.false_ne_true), if_pos hx]
    · simp only [getParserByResponseHeader_]
      rw [if_neg hne, if_neg (by rw [hj]; exact Bool.false_ne_true), if_pos hx]
      simp
    · intro enc hene hb64
      simp only [getParserByResponseHeader_]
      rw [if_neg hne, if_neg (by rw [hj]; exact Bool.false_ne_true), if_pos hx]
      rw [if_neg hene, if_pos hb64]
    · intro enc hene hnb64
      simp only [getParserByResponseHeader_]
      rw [if_neg hne, if_neg (by rw [hj]; exact Bool.false_ne_true), if_pos hx]
      rw [if_neg hene, if_neg hnb64]
  · intro ct te hne hj hx
    simp only [getParserByResponseHeader_]
    rw [if_neg hne, if_neg (by rw [hj]; exact Bool.false_ne_true),
      if_neg (by rw [hx]; exact Bool.false_ne_true)]
  · intro id sh dh evs
    exact (runEvents_selectCount (mkXhrStreamReader id sh dh) evs).1
  · intro ev r hl ht hg hp hsel
    rcases deliverEvent_shape ev r with ⟨hl0, _⟩ | ⟨_, ht0, _⟩ | ⟨_, _, hg0, _⟩ |
      ⟨_, _, _, c, s, e1, hcdef, hsdef, he1def, hrest⟩
    · rw [hl] at hl0
      cases hl0
    · exact absurd ht ht0
    · exact absurd hg0 hg
    · subst hcdef
      subst hsdef
      subst he1def
      have hcp : (classifyStep ev r).1.parser_ = none := by
        rw [(classifyStep_fields ev r).2.1]
        exact hp
      rcases selectStep_shape ev (classifyStep ev r).1 with
        ⟨hpne, _⟩ | ⟨_, k, hk, _⟩ | ⟨_, _, hseleq⟩
      · exact absurd hcp hpne
      · rw [hsel] at hk
        cases hk
      · have hs1stat : (selectStep ev (classifyStep ev r).1).1.status_ =
            XhrStreamReaderStatus.BAD_DATA := by
          rw [hseleq, updateStatus_fst]
        rcases hrest with ⟨hsc, hres⟩ | ⟨hsc, _⟩
        · rw [hres]
          refine ⟨?_, ?_, ?_⟩
          · rw [clear_fst]
            exact hs1stat
          · rw [clear_fst]
          · rw [clear_fst]
        · exfalso
          rw [hs1stat] at hsc
          exact hsc (by decide)

/-- C4, witness: a mixed-case JSON-protobuf content type selects the
JSON-wrapped-binary decoder. -/
theorem C4_witness :
    getParserByResponseHeader_ (some "Application/JSON+Protobuf; v=1") none =
      some ParserKind.pbJson :=
  C4_parser_selection.2.2.1 "Application/JSON+Protobuf; v=1" none
    (by decide) (by decide)

/-- C5, counterexample: a completion with status code 500 does not always
end in `XHR_ERROR`: if no decoder was selected and the content type is
missing, the failed selection overwrites the classification, so the final
status is `BAD_DATA` (decoding is still skipped). -/
theorem C5_counterexample :
    getStatus (deliverEvent ev500NoCT (mkXhrStreamReader 7 true true)).1 =
      XhrStreamReaderStatus.BAD_DATA ∧
    XhrStreamReaderStatus.BAD_DATA ≠ XhrStreamReaderStatus.XHR_ERROR ∧
    parseCalls (deliverEvent ev500NoCT (mkXhrStreamReader 7 true true)).2 = [] := by
  decide

/-- C5, amended: for a completion notification whose status code is neither
200 nor 206 and which carries no timeout/abort classification, no decoding
occurs (the strictly-worse-than-`SUCCESS` short circuit tears down and
returns before the decode step) and the final status is `XHR_ERROR` —
unless the reader still has no decoder and the headers select none, in
which case the selection failure overwrites it with `BAD_DATA`. -/
theorem C5_amended (ev : XhrEvent) (r : XhrStreamReader)
    (hl : r.listening = true) (ht : some ev.target = r.xhr_)
    (h4 : ev.readyState = ReadyStateCOMPLETE)
    (hpre : r.status_ = XhrStreamReaderStatus.INIT ∨
            r.status_ = XhrStreamReaderStatus.ACTIVE)
    (hnt : ev.errorCode ≠ ErrorCode.TIMEOUT)
    (hna : ev.errorCode ≠ ErrorCode.ABORT)
    (hnok : ¬ (ev.statusCode = HttpStatusOK ∨
               ev.statusCode = HttpStatusPARTIAL_CONTENT)) :
    parseCalls (deliverEvent ev r).2 = [] ∧
    (deliverEvent ev r).1.listening = false ∧
    (deliverEvent ev r).1.xhr_ = none ∧
    (deliverEvent ev r).1.status_ =
      (if r.parser_ = none ∧
          getParserByResponseHeader_ ev.contentType ev.transferEncoding = none
       then XhrStreamReaderStatus.BAD_DATA
       else XhrStreamReaderStatus.XHR_ERROR) := by
  obtain ⟨hpc, hlis, hx, hstat⟩ :=
    deliver_completeFailure ev r hl ht h4 hpre (Or.inr (Or.inr hnok))
  refine ⟨hpc, hlis, hx, ?_⟩
  rw [hstat]
  by_cases hbad : r.parser_ = none ∧
      getParserByResponseHeader_ ev.contentType ev.transferEncoding = none
  · rw [if_pos hbad, if_pos hbad]
  · rw [if_neg hbad, if_neg hbad, if_neg hnt, if_neg hna]

/-- C5, witness: a 500 completion with a valid JSON content type ends in
`XHR_ERROR`. -/
theorem C5_amended_witness :
    (deliverEvent ev500Json (mkXhrStreamReader 7 true true)).1.status_ =
      XhrStreamReaderStatus.XHR_ERROR := by
  have h := (C5_amended ev500Json (mkXhrStreamReader 7 true true) rfl rfl rfl
    (Or.inl rfl) (by decide) (by decide) (by decide)).2.2.2
  rw [h]
  decide

/-- C6: the read cursor never decreases; if it is within the current
response text it stays within it; every slice handed to the parser starts
exactly at the cursor value before the hand-off and the cursor is advanced
to the end of the snapshot before the parser runs (so no byte is ever
decoded twice); and over any run whose response-text lengths are
monotonically non-decreasing, the cursor never exceeds the most recent
snapshot length. -/
theorem C6_cursor_invariant :
    (∀ (ev : XhrEvent) (r : XhrStreamReader),
      r.pos_ ≤ (deliverEvent ev r).1.pos_) ∧
    (∀ (ev : XhrEvent) (r : XhrStreamReader),
      r.pos_ ≤ jsLength ev.responseText →
      (deliverEvent ev r).1.pos_ ≤ jsLength ev.responseText) ∧
    (∀ (ev : XhrEvent) (r : XhrStreamReader) (p : Nat) (d2 : String),
      (p, d2) ∈ parseCalls (deliverEvent ev r).2 →
      p = r.pos_ ∧ d2 = jsSubstr ev.responseText r.pos_ ∧
      r.pos_ < jsLength ev.responseText ∧
      (deliverEvent ev r).1.pos_ = jsLength ev.responseText) ∧
    (∀ (id : Nat) (sh dh : Bool) (evs : List XhrEvent),
      List.Chain (· ≤ ·) 0 (evs.map fun e => jsLength e.responseText) →
      (runEvents (mkXhrStreamReader id sh dh) evs).1.pos_ ≤
        (evs.map fun e => jsLength e.responseText).getLastD 0) := by
  refine ⟨?_, ?_, ?_, ?_⟩
  · intro ev r
    rcases deliver_cursor ev r with ⟨hp, _⟩ | ⟨hlt, hp, _⟩
    · rw [hp]
    · rw [hp]
      exact le_of_lt hlt
  · intro ev r hle
    rcases deliver_cursor ev r with ⟨hp, _⟩ | ⟨_, hp, _⟩
    · rw [hp]
      exact hle
    · rw [hp]
  · intro ev r p d2 hmem
    rcases deliver_cursor ev r with ⟨_, hpc⟩ | ⟨hlt, hp, hpc⟩
    · rw [hpc] at hmem
      cases hmem
    · rw [hpc] at hmem
      rcases List.mem_singleton.mp hmem with h
      obtain ⟨h1, h2⟩ := Prod.mk.injEq .. ▸ h
      exact ⟨by rw [← h1], by rw [← h2], hlt, hp⟩
  · intro id sh dh evs hchain
    exact (runEvents_cursor (mkXhrStreamReader id sh dh) evs hchain).2

/-- C6, witness: one interactive notification with three new characters
leaves the cursor within the snapshot. -/
theorem C6_witness :
    (deliverEvent baseEvent (mkXhrStreamReader 7 true true)).1.pos_ ≤
      jsLength baseEvent.responseText :=
  C6_cursor_invariant.2.1 baseEvent (mkXhrStreamReader 7 true true) (by decide)

/-- C7, counterexample: an exception thrown by the registered message
handler during delivery is caught by the decode-step `catch`, not by the
notification entry point: the resulting status is `BAD_DATA`, not
`HANDLER_EXCEPTION` as claimed (the reader is still torn down and nothing
propagates). -/
theorem C7_counterexample :
    getStatus (deliverEvent evThrowMsg (mkXhrStreamReader 7 true true)).1 =
      XhrStreamReaderStatus.BAD_DATA ∧
    getStatus (deliverEvent evThrowMsg (mkXhrStreamReader 7 true true)).1 ≠
      XhrStreamReaderStatus.HANDLER_EXCEPTION ∧
    dataCalls (deliverEvent evThrowMsg (mkXhrStreamReader 7 true true)).2 =
      [[5]] ∧
    (deliverEvent evThrowMsg (mkXhrStreamReader 7 true true)).1.listening =
      false ∧
    (deliverEvent evThrowMsg (mkXhrStreamReader 7 true true)).1.xhr_ = none := by
  decide

/-- C7, amended: whenever the registered message handler is invoked during
a notification and throws, the exception is caught inside the decode step's
`catch`: the status becomes `BAD_DATA`, teardown runs (listener removed,
transport released), and nothing propagates to the transport's event
delivery path — `deliverEvent` is a total function, so the notification
entry point returns normally on every input. -/
theorem C7_amended (ev : XhrEvent) (r : XhrStreamReader)
    (hth : ev.dataHandlerThrows = true)
    (hinv : dataCalls (deliverEvent ev r).2 ≠ []) :
    (deliverEvent ev r).1.status_ = XhrStreamReaderStatus.BAD_DATA ∧
    (deliverEvent ev r).1.listening = false ∧
    (deliverEvent ev r).1.xhr_ = none :=
  deliver_dataThrow ev r hth hinv

/-- C7, witness: the throwing-handler scenario at a concrete input. -/
theorem C7_amended_witness :
    (deliverEvent evThrowMsg (mkXhrStreamReader 7 true true)).1.status_ =
      XhrStreamReaderStatus.BAD_DATA :=
  (C7_amended evThrowMsg (mkXhrStreamReader 7 true true) rfl (by decide)).1

/-- C8: teardown (`clear_`) is idempotent and single-issue — a second
invocation changes nothing and emits no observable effect (and, being a
total function, does not throw); the transport reference is nulled in the
state from which `abort` is invoked, so a reentrant synchronous
notification delivered during the abort finds the reader already detached
and is a complete no-op; and over any whole run the transport's `abort` and
`dispose` are each called at most once, exactly once precisely when the
reader has released the transport. -/
theorem C8_teardown_idempotent_single_issue :
    (∀ r : XhrStreamReader, clear_ ((clear_ r).1) = ((clear_ r).1, [])) ∧
    (∀ r : XhrStreamReader,
      (clear_ r).1.xhr_ = none ∧ (clear_ r).1.listening = false) ∧
    (∀ (r : XhrStreamReader) (ev : XhrEvent),
      deliverEvent ev (clear_ r).1 = ((clear_ r).1, [])) ∧
    (∀ (id : Nat) (sh dh : Bool) (evs : List XhrEvent),
      abortCount (runEvents (mkXhrStreamReader id sh dh) evs).2 ≤ 1 ∧
      disposeCount (runEvents (mkXhrStreamReader id sh dh) evs).2 =
        abortCount (runEvents (mkXhrStreamReader id sh dh) evs).2 ∧
      (abortCount (runEvents (mkXhrStreamReader id sh dh) evs).2 = 1 ↔
        (runEvents (mkXhrStreamReader id sh dh) evs).1.xhr_ = none)) := by
  refine ⟨?_, ?_, ?_, ?_⟩
  · intro r
    obtain ⟨x, p, ps, st, sh, dh, li⟩ := r
    cases x <;> simp [clear_]
  · intro r
    rw [clear_fst]
    exact ⟨rfl, rfl⟩
  · intro r ev
    apply deliver_notListening
    rw [clear_fst]
  · intro id sh dh evs
    rcases runEvents_abort (mkXhrStreamReader id sh dh) evs with
      ⟨hx, ha, hd⟩ | ⟨hs, hx, ha, hd⟩
    · refine ⟨by rw [ha]; decide, by rw [ha, hd], ?_⟩
      constructor
      · intro h
        rw [ha] at h
        cases h
      · intro h
        rw [h] at hx
        cases hx
    · refine ⟨by rw [ha], by rw [ha, hd], ?_⟩
      constructor
      · intro _
        exact hx
      · intro _
        exact ha

/-- C9: the status-change callback is invoked exactly once per status
update whose new value differs from the current one, and not at all when
the value is re-affirmed (`updateStatus_`). -/
theorem C9_statusHandler_iff_changed (r : XhrStreamReader)
    (s : XhrStreamReaderStatus) (hsh : r.statusHandler_ = true) :
    ((updateStatus_ r s).2 = [Effect.statusCall s] ↔ s ≠ r.status_) ∧
    (s = r.status_ → updateStatus_ r s = (r, [])) ∧
    (s ≠ r.status_ → updateStatus_ r s =
      ({ r with status_ := s }, [Effect.statusCall s])) := by
  refine ⟨?_, ?_, ?_⟩
  · rw [updateStatus_snd]
    constructor
    · intro h
      by_cases he : r.status_ = s
      · rw [if_neg (by simp [he])] at h
        cases h
      · exact Ne.symm he
    · intro h
      rw [if_pos ⟨Ne.symm h, hsh⟩]
  · intro h
    unfold updateStatus_
    rw [if_neg (by simp [h])]
  · intro h
    unfold updateStatus_
    rw [if_pos (Ne.symm h)]
    have : ({ r with status_ := s } : XhrStreamReader).statusHandler_ = true := hsh
    rw [if_pos this]

/-- C9, witness: the first transition to `ACTIVE` fires the callback once. -/
theorem C9_witness :
    (updateStatus_ (mkXhrStreamReader 7 true false)
        XhrStreamReaderStatus.ACTIVE).2 =
      [Effect.statusCall XhrStreamReaderStatus.ACTIVE] :=
  ((C9_statusHandler_iff_changed (mkXhrStreamReader 7 true false)
      XhrStreamReaderStatus.ACTIVE rfl).1).mpr (by decide)

/-- C10: selection runs before the terminal-failure short circuit — on a
completion notification that carries a network-failure classification
(`TIMEOUT`, `CANCELLED` or not-successful `XHR_ERROR`) while no decoder has
been selected, unsupported or missing headers make the selection failure
overwrite the classification, so the final observable status is `BAD_DATA`
rather than the network-failure value, and the reader is torn down. -/
theorem C10_badData_overwrites_network_failure (ev : XhrEvent)
    (r : XhrStreamReader)
    (hl : r.listening = true) (ht : some ev.target = r.xhr_)
    (h4 : ev.readyState = ReadyStateCOMPLETE)
    (hpre : r.status_ = XhrStreamReaderStatus.INIT ∨
            r.status_ = XhrStreamReaderStatus.ACTIVE)
    (hp : r.parser_ = none)
    (hfail : ev.errorCode = ErrorCode.TIMEOUT ∨ ev.errorCode = ErrorCode.ABORT ∨
      ¬ (ev.statusCode = HttpStatusOK ∨
         ev.statusCode = HttpStatusPARTIAL_CONTENT))
    (hsel : getParserByResponseHeader_ ev.contentType ev.transferEncoding =
      none) :
    (deliverEvent ev r).1.status_ = XhrStreamReaderStatus.BAD_DATA ∧
    (deliverEvent ev r).1.listening = false ∧
    (deliverEvent ev r).1.xhr_ = none := by
  obtain ⟨_, hlis, hx, hstat⟩ := deliver_completeFailure ev r hl ht h4 hpre hfail
  rw [if_pos ⟨hp, hsel⟩] at hstat
  exact ⟨hstat, hlis, hx⟩

/-- C10, witness: a timed-out completion with no content type ends as
`BAD_DATA`, not `TIMEOUT`. -/
theorem C10_witness :
    (deliverEvent evTimeoutNoCT (mkXhrStreamReader 7 true true)).1.status_ =
      XhrStreamReaderStatus.BAD_DATA :=
  (C10_badData_overwrites_network_failure evTimeoutNoCT
    (mkXhrStreamReader 7 true true) rfl rfl rfl (Or.inl rfl) rfl
    (Or.inl rfl) rfl).1
